import Mathlib

/-!
Shallow embedding of the fragment-routing and cross-partition saga logic of
src/api.py (py-chroma).  The two chroma servers DBVS1 (academic domain) and
DBVS2 (personal domain) each host two databases; records live in named
collections inside a database.  The gateway semantics (add as upsert, delete
ignoring missing ids, update failing on a missing id, get returning rows in
insertion order) follow the repository itself: its in-memory gateway in
tests/test_api.py, which is the stand-in for the chroma HTTP client used by
the test suite.  Failures of individual gateway writes are modelled by an
explicit fault set, mirroring how the tests force partition failures.
Metadata dictionaries are association lists whose lookup takes the last
binding, so that Python dict assignment is list append.  Python str(x) on
metadata values is modelled by pyStr, and int(x) by pyIntOfVal (decimal
literals with an optional sign; Python would additionally accept surrounding
whitespace and underscores, which no record in this system uses).
-/

/-- Metadata value stored under a key: the program only ever inspects values
with str() or int(), so integers and strings (other payloads ride along as
either) suffice. -/
inductive Val where
  | int (n : Int)
  | str (t : String)
deriving DecidableEq, Repr

/-- Python str() on a metadata value. -/
def pyStr : Val → String
  | .int n => toString n
  | .str t => t

/-- Python str() applied to an optional value, where a missing key gives
str(None) = "None" (move_course compares str(meta.get("course_id")) without
checking presence). -/
def pyStrOpt : Option Val → String
  | none => "None"
  | some v => pyStr v

def pyNatOfDigits (cs : List Char) : Nat :=
  cs.foldl (fun a c => 10 * a + (c.toNat - 48)) 0

def pyNat? (cs : List Char) : Option Nat :=
  if cs ≠ [] ∧ cs.all (fun c => decide ('0' ≤ c) && decide (c ≤ '9')) then
    some (pyNatOfDigits cs)
  else none

/-- Python int() on a string: an optionally signed run of decimal digits. -/
def pyInt? (s : String) : Option Int :=
  match s.data with
  | '-' :: rest => (pyNat? rest).map (fun n => -(n : Int))
  | '+' :: rest => (pyNat? rest).map (fun n => (n : Int))
  | cs => (pyNat? cs).map (fun n => (n : Int))

/-- Python int() on a metadata value. -/
def pyIntOfVal : Val → Option Int
  | .int n => some n
  | .str t => pyInt? t

/-- Metadata dictionary: association list, lookup takes the last binding so
that dict assignment d[k] = v is modelled by appending (k, v). -/
def metaGet (m : List (String × Val)) (k : String) : Option Val :=
  (m.reverse.find? (fun p => p.1 = k)).map (·.2)

/-- One stored record: id, document and metadata. -/
structure Row where
  id : String
  doc : String
  meta : List (String × Val)
deriving DecidableEq, Repr

/-- Collection add, with the gateway's upsert semantics. -/
def colAdd (col : List Row) (r : Row) : List Row :=
  if col.any (fun x => x.id = r.id) then
    col.map (fun x => if x.id = r.id then r else x)
  else
    col ++ [r]

/-- Collection delete: removes every row whose id is listed, ignoring ids
that are absent. -/
def colDeleteIds (col : List Row) (ids : List String) : List Row :=
  col.filter (fun r => ¬ ids.contains r.id)

/-- Row lookup by id (the "rid in ids; idx = ids.index(rid)" pattern). -/
def colGet (col : List Row) (rid : String) : Option Row :=
  col.find? (fun r => r.id = rid)

/-- Collection update: replaces document and metadata of an existing row,
failing (like the gateway) when the id is absent. -/
def colUpdate (col : List Row) (rid : String) (doc : String)
    (meta : List (String × Val)) : Option (List Row) :=
  if col.any (fun x => x.id = rid) then
    some (col.map (fun x => if x.id = rid then ⟨rid, doc, meta⟩ else x))
  else none

/-- Database: named collections in creation order. -/
abbrev Db := List (String × List Row)

def dbGetCol? (db : Db) (n : String) : Option (List Row) :=
  (db.find? (fun p => p.1 = n)).map (·.2)

def dbSetCol : Db → String → List Row → Db
  | [], n, col => [(n, col)]
  | p :: db, n, col => if p.1 = n then (n, col) :: db else p :: dbSetCol db n col

/-- The four physical databases of FRAGMENTS in src/api.py. -/
inductive DbId where
  | db11
  | db12
  | db21
  | db22
deriving DecidableEq, Repr

/-- The two chroma servers. -/
inductive Server where
  | DBVS1
  | DBVS2
deriving DecidableEq, Repr

/-- Global state: the contents of the four databases. -/
structure Store where
  db11 : Db
  db12 : Db
  db21 : Db
  db22 : Db
deriving DecidableEq, Repr

def Store.get (s : Store) : DbId → Db
  | .db11 => s.db11
  | .db12 => s.db12
  | .db21 => s.db21
  | .db22 => s.db22

def Store.set (s : Store) (d : DbId) (db : Db) : Store :=
  match d with
  | .db11 => { s with db11 := db }
  | .db12 => { s with db12 := db }
  | .db21 => { s with db21 := db }
  | .db22 => { s with db22 := db }

def colOf (s : Store) (d : DbId) (n : String) : Option (List Row) :=
  dbGetCol? (s.get d) n

def putCol (s : Store) (d : DbId) (n : String) (col : List Row) : Store :=
  s.set d (dbSetCol (s.get d) n col)

/-- get_or_create_collection: creates an empty collection when absent. -/
def ensureCol (s : Store) (d : DbId) (n : String) : Store :=
  if (colOf s d n).isSome then s else putCol s d n []

/-- Gateway write operations that the fault set can make fail. -/
inductive GOp where
  | add
  | del
  | upd
deriving DecidableEq, Repr

/-- Fault set: the gateway call (database, collection, operation) raises
whenever listed here, mirroring the failing wrappers the test suite installs
around the chroma client. -/
abbrev Faults := List (DbId × String × GOp)

def faulted (fs : Faults) (d : DbId) (n : String) (o : GOp) : Bool :=
  fs.contains (d, n, o)

/-- Gateway-level failure. -/
inductive GErr where
  | fault
  | missingId (rid : String)
deriving DecidableEq, Repr

/-- Gateway add on a collection reached through get_or_create_collection. -/
def gwAdd (fs : Faults) (s : Store) (d : DbId) (n : String) (r : Row) :
    Except GErr Store :=
  if faulted fs d n .add then .error .fault
  else .ok (putCol s d n (colAdd ((colOf s d n).getD []) r))

def gwDel (fs : Faults) (s : Store) (d : DbId) (n : String)
    (ids : List String) : Except GErr Store :=
  if faulted fs d n .del then .error .fault
  else .ok (putCol s d n (colDeleteIds ((colOf s d n).getD []) ids))

def gwUpd (fs : Faults) (s : Store) (d : DbId) (n : String) (rid : String)
    (doc : String) (meta : List (String × Val)) : Except GErr Store :=
  if faulted fs d n .upd then .error .fault
  else
    match colUpdate ((colOf s d n).getD []) rid doc meta with
    | some col => .ok (putCol s d n col)
    | none => .error (.missingId rid)

/-- The "try col.add except Exception: col.update" pattern used by
move_course. -/
def gwAddElseUpd (fs : Faults) (s : Store) (d : DbId) (n : String) (r : Row) :
    Except GErr Store :=
  match gwAdd fs s d n r with
  | .ok s' => .ok s'
  | .error _ => gwUpd fs s d n r.id r.doc r.meta

/-- Abstract error surfaced by an endpoint; one constructor per raise site
of src/api.py, carrying the data interpolated into that raise site's
message. -/
inductive ApiErr where
  | noFragment (server : Server) (year : Int)
  | studyYearNotInt
  | studyYearOutOfRange
  | missingFinalScore
  | invalidDbvs1Meta
  | missingDbvs2Fields
  | invalidDbvs2Meta
  | insertDbvs1Failed (db : DbId)
  | insertDbvs2Failed (db : DbId)
  | insertDbvs2RollbackFailed (db : DbId)
  | courseNotFound (cid : String)
  | courseDeleteFailed (db : DbId)
  | unknownSourceDb
  | examDeleteFailedRolledBack (db : DbId)
  | examDeleteRestoreFailed (db : DbId)
  | reviewsDeleteFailedRolledBack (peer : DbId) (src : DbId)
  | reviewsDeleteRestoreFailed (peer : DbId)
  | badTargetDb
  | movePhase1Failed
  | movePhase1RollbackFailed
  | moveReviewsFailed
  | moveReviewsRollbackFailed
  | studentNotFound (sid : String)
  | deleteDbvs1Failed (db : DbId)
  | deleteDbvs2Failed (db : DbId)
  | studyYearMissing
  | inconsistentStudyYear
  | maxStudyYear
  | upgradeUpdateFailed (server : Server) (db : DbId)
  | upgradeAddFailed (server : Server) (db : DbId)
  | upgradeDeleteFailed (server : Server) (db : DbId)
deriving DecidableEq, Repr

/-- Whether the raise site behind this error interpolates a compensation
(rollback or restore) failure into its message, in addition to the original
step failure. -/
def mentionsCompensationFailure : ApiErr → Bool
  | .insertDbvs2RollbackFailed _ => true
  | .examDeleteRestoreFailed _ => true
  | .reviewsDeleteRestoreFailed _ => true
  | .movePhase1RollbackFailed => true
  | .moveReviewsRollbackFailed => true
  | _ => false

instance {ε α : Type} [DecidableEq ε] [DecidableEq α] : DecidableEq (Except ε α) :=
  fun x y =>
    match x, y with
    | .ok a, .ok b =>
      if h : a = b then .isTrue (by subst h; rfl) else .isFalse (by simp [h])
    | .error a, .error b =>
      if h : a = b then .isTrue (by subst h; rfl) else .isFalse (by simp [h])
    | .ok _, .error _ => .isFalse (by simp)
    | .error _, .ok _ => .isFalse (by simp)

/-- One entry of a server's FRAGMENTS table. -/
structure FragInfo where
  fragType : String
  database : DbId
  lo : Int
  hi : Int
deriving DecidableEq, Repr

/-- The FRAGMENTS routing table of src/api.py, in dict iteration order. -/
def FRAGMENTS : Server → List FragInfo
  | .DBVS1 => [⟨"internal", .db11, 1, 2⟩, ⟨"external", .db12, 3, 4⟩]
  | .DBVS2 => [⟨"internal", .db21, 1, 2⟩, ⟨"external", .db22, 3, 4⟩]

/-- resolve_fragment: linear scan of a server's fragment rules; raises a 400
routing error when no year range contains study_year. -/
def resolve_fragment (srv : Server) (y : Int) : Except ApiErr DbId :=
  match (FRAGMENTS srv).find? (fun f => decide (f.lo ≤ y) && decide (y ≤ f.hi)) with
  | some f => .ok f.database
  | none => .error (.noFragment srv y)

/-- All databases whose year range contains the given study_year, used to
state that the ranges are exhaustive and non-overlapping. -/
def matchingDbs (srv : Server) (y : Int) : List DbId :=
  ((FRAGMENTS srv).filter (fun f => decide (f.lo ≤ y) && decide (y ≤ f.hi))).map
    (·.database)

/-- The (server, database) pairs scanned by the id allocator, in FRAGMENTS
iteration order: db11, db12, db21, db22. -/
def allStudentDbs : List DbId :=
  [Server.DBVS1, Server.DBVS2].flatMap (fun srv => (FRAGMENTS srv).map (·.database))

/-- Inner loop of _allocate_next_student_id: per database, get_or_create the
"students" collection and fold the running maximum over every id that parses
as an integer. -/
def allocScan : List DbId → Store → Int → Store × Int
  | [], s, m => (s, m)
  | d :: rest, s, m =>
    let s' := ensureCol s d "students"
    let ids := ((colOf s' d "students").getD []).map (·.id)
    let m' := ids.foldl
      (fun acc rid =>
        match pyInt? rid with
        | some v => if v > acc then v else acc
        | none => acc) m
    allocScan rest s' m'

/-- _allocate_next_student_id of src/api.py: scan all four partitions and
return one plus the running maximum (which starts at 0). -/
def allocate_next_student_id (s : Store) : Store × Int :=
  ((allocScan allStudentDbs s 0).1, (allocScan allStudentDbs s 0).2 + 1)

/-- Every id found in a "students" collection of the four partitions,
read-only view used to state properties of the allocator. -/
def studentIdsAll (s : Store) : List String :=
  allStudentDbs.flatMap (fun d => ((colOf s d "students").getD []).map (·.id))

/-- The student ids that parse as integers. -/
def parsedStudentIds (s : Store) : List Int :=
  (studentIdsAll s).filterMap pyInt?

/-- Concrete store for the allocator counterexample: a single student row
whose id is the numeric string "-2". -/
def allocCexStore : Store :=
  { db11 := [("students", [⟨"-2", "x", []⟩])]
    db12 := []
    db21 := []
    db22 := [] }

/-- The databases of one server, in FRAGMENTS iteration order. -/
def serverDbs (srv : Server) : List DbId :=
  (FRAGMENTS srv).map (·.database)

/-- Inner loop of the per-server aggregation of get_all_students: rows with
an empty (falsy) id are skipped and the first row seen for an id wins. -/
def aggRows : List Row → List (String × String × List (String × Val)) →
    List (String × String × List (String × Val))
  | [], acc => acc
  | r :: rest, acc =>
    if r.id = "" then aggRows rest acc
    else if (acc.find? (fun p => p.1 = r.id)).isSome then aggRows rest acc
    else aggRows rest (acc ++ [(r.id, r.doc, r.meta)])

/-- Per-server aggregation of get_all_students: full scan of every
partition's "students" collection (partitions without one are skipped). -/
def aggregateServer (s : Store) (srv : Server) :
    List (String × String × List (String × Val)) :=
  (serverDbs srv).foldl
    (fun acc d =>
      match colOf s d "students" with
      | none => acc
      | some col => aggRows col acc) []

/-- Lookup of one aggregated (document, metadata) entry by merge id. -/
def aggFind (agg : List (String × String × List (String × Val))) (mid : String) :
    Option (String × List (String × Val)) :=
  (agg.find? (fun p => p.1 = mid)).map (·.2)

/-- One row of the get_all_students response: the fixed output field set,
with null (none) for fields absent from the merged metadata. -/
structure StudentOut where
  id : String
  review : Option String
  motivational_letter : Option String
  student_id : Option Val
  name : Option Val
  surname : Option Val
  email : Option Val
  final_score : Option Val
  timestamp : Option Val
  study_year : Option Val
deriving DecidableEq, Repr

/-- Merged metadata for one id: dict update of the DBVS2 entry's metadata
followed by the DBVS1 entry's metadata, so under last-binding-wins lookup
the DBVS1 (academic) values shadow the DBVS2 (personal) ones. -/
def mergedMetaOf (e1 e2 : Option (String × List (String × Val))) :
    List (String × Val) :=
  (match e2 with | some e => e.2 | none => []) ++
    (match e1 with | some e => e.2 | none => [])

/-- Builds the output row of get_all_students for one merge id. -/
def mkStudentOut (a1 a2 : List (String × String × List (String × Val)))
    (mid : String) : StudentOut :=
  let e1 := aggFind a1 mid
  let e2 := aggFind a2 mid
  let merged := mergedMetaOf e1 e2
  { id := mid
    review := e1.map (·.1)
    motivational_letter := e2.map (·.1)
    student_id :=
      match metaGet merged "student_id" with
      | some v => some v
      | none => some (.str mid)
    name := metaGet merged "name"
    surname := metaGet merged "surname"
    email := metaGet merged "email"
    final_score := metaGet merged "final_score"
    timestamp := metaGet merged "timestamp"
    study_year := metaGet merged "study_year" }

/-- get_all_students of src/api.py: aggregate both servers, take the union
of the merge ids and emit one merged row per id (the Python set iteration
order is modelled as deduplicated concatenation; no claim depends on the
order). -/
def get_all_students (s : Store) : List StudentOut :=
  ((aggregateServer s .DBVS1).map (·.1) ++ (aggregateServer s .DBVS2).map (·.1)).dedup.map
    (mkStudentOut (aggregateServer s .DBVS1) (aggregateServer s .DBVS2))

/-- Concrete store for the merge-precedence counterexample: the two records
of student "7" disagree on study_year (academic says 2, personal says 3). -/
def mergeCexStore : Store :=
  { db11 := [("students",
      [⟨"7", "d1", [("final_score", .int 9), ("study_year", .int 2),
        ("timestamp", .str "t")]⟩])]
    db12 := []
    db21 := [("students",
      [⟨"7", "d2", [("student_id", .int 7), ("name", .str "A"),
        ("surname", .str "B"), ("email", .str "a@b.c"),
        ("study_year", .int 3)]⟩])]
    db22 := [] }

/-- Concrete store for the single-domain aggregation witness: student "9"
exists only in the academic domain, student "8" only in the personal one. -/
def singleDomainStore : Store :=
  { db11 := [("students", [⟨"9", "r9", [("final_score", .int 5)]⟩])]
    db12 := []
    db21 := [("students", [⟨"8", "m8", [("name", .str "N")]⟩])]
    db22 := [] }

/-- Request body of the insert-student endpoint. -/
structure StudentIn where
  document : String
  metadata : List (String × Val)
deriving DecidableEq, Repr

/-- Pydantic float coercion for the final_score field, restricted to the
integer values this model carries (a float literal would also coerce; no
claim depends on the wider acceptance). -/
def floatCoercible : Val → Bool
  | .int _ => true
  | .str _ => false

/-- Pydantic check of a provided timestamp (must be a string when present). -/
def timestampOk (meta : List (String × Val)) : Bool :=
  match metaGet meta "timestamp" with
  | some (.str _) => true
  | some (.int _) => false
  | none => true

/-- Validation prefix of insert_student, in source order: coerce study_year
to an integer, range-check it, require final_score, validate the DBVS1
metadata shape, require the DBVS2 name fields.  Returns the coerced
study_year. -/
def validateStudent (inp : StudentIn) : Except ApiErr Int :=
  let sy? : Option Int :=
    match metaGet inp.metadata "study_year" with
    | some (.int n) => some n
    | some (.str t) => pyInt? t
    | none => none
  match sy? with
  | none => .error .studyYearNotInt
  | some sy =>
    if sy = 1 ∨ sy = 2 ∨ sy = 3 ∨ sy = 4 then
      match metaGet inp.metadata "final_score" with
      | none => .error .missingFinalScore
      | some v =>
        if floatCoercible v && timestampOk inp.metadata then
          if (metaGet inp.metadata "name").isSome ∧
              (metaGet inp.metadata "surname").isSome ∧
              (metaGet inp.metadata "email").isSome then
            .ok sy
          else .error .missingDbvs2Fields
        else .error .invalidDbvs1Meta
    else .error .studyYearOutOfRange

/-- Pydantic check of the DBVS2 metadata built after id allocation: the
three name fields must be strings. -/
def dbvs2MetaOk (inp : StudentIn) : Bool :=
  (match metaGet inp.metadata "name" with | some (.str _) => true | _ => false) &&
  (match metaGet inp.metadata "surname" with | some (.str _) => true | _ => false) &&
  (match metaGet inp.metadata "email" with | some (.str _) => true | _ => false)

/-- The DBVS1 (academic) record metadata built by insert_student; the
timestamp defaults to the current UTC time, passed in as now. -/
def dbvs1MetaFor (inp : StudentIn) (now : String) (sy : Int) :
    List (String × Val) :=
  [("final_score", (metaGet inp.metadata "final_score").getD (.int 0)),
   ("study_year", .int sy),
   ("timestamp", (metaGet inp.metadata "timestamp").getD (.str now))]

/-- The DBVS2 (personal) record metadata built by insert_student. -/
def dbvs2MetaFor (inp : StudentIn) (sid : Int) (sy : Int) :
    List (String × Val) :=
  [("student_id", .int sid),
   ("name", (metaGet inp.metadata "name").getD (.int 0)),
   ("surname", (metaGet inp.metadata "surname").getD (.int 0)),
   ("email", (metaGet inp.metadata "email").getD (.int 0)),
   ("study_year", .int sy)]

/-- insert_student of src/api.py: validate, resolve both fragments,
allocate the next id by scanning all partitions, validate the personal
metadata, write the academic record, then the personal record; when the
personal write fails, compensate by deleting the academic record just
written, reporting a composite error when that compensation itself fails. -/
def insert_student (fs : Faults) (now : String) (s : Store) (inp : StudentIn) :
    Store × Except ApiErr Int :=
  match validateStudent inp with
  | .error e => (s, .error e)
  | .ok sy =>
    match resolve_fragment .DBVS1 sy with
    | .error e => (s, .error e)
    | .ok d1 =>
      match resolve_fragment .DBVS2 sy with
      | .error e => (s, .error e)
      | .ok d2 =>
        let s1 := (allocate_next_student_id s).1
        let nid := (allocate_next_student_id s).2
        if dbvs2MetaOk inp then
          let sA := ensureCol s1 d1 "students"
          match gwAdd fs sA d1 "students"
              ⟨toString nid, inp.document, dbvs1MetaFor inp now sy⟩ with
          | .error _ => (sA, .error (.insertDbvs1Failed d1))
          | .ok s2 =>
            let sB := ensureCol s2 d2 "students"
            match gwAdd fs sB d2 "students"
                ⟨toString nid, inp.document, dbvs2MetaFor inp nid sy⟩ with
            | .error _ =>
              match gwDel fs sB d1 "students" [toString nid] with
              | .error _ => (sB, .error (.insertDbvs2RollbackFailed d2))
              | .ok s3 => (s3, .error (.insertDbvs2Failed d2))
            | .ok s3 => (s3, .ok nid)
        else (s1, .error .invalidDbvs2Meta)

/-- The locate_student helper shared by delete_student and
upgrade_student_year: scan the server's partitions in FRAGMENTS order and
return the first students row with the given id, together with its
database. -/
def locateStudent (s : Store) (srv : Server) (sid : String) :
    Option (DbId × String × List (String × Val)) :=
  (serverDbs srv).foldr
    (fun d acc =>
      match colOf s d "students" with
      | none => acc
      | some col =>
        match colGet col sid with
        | some r => some (d, r.doc, r.meta)
        | none => acc)
    none

/-- study_year of a located record, as read by upgrade_student_year:
to_int_year(meta.get("study_year")). -/
def studyYearOf (meta : List (String × Val)) : Option Int :=
  match metaGet meta "study_year" with
  | none => none
  | some v => pyIntOfVal v

/-- delete_student of src/api.py: require the student in both vertical
fragments, delete the academic record, then the personal one; when the
personal delete fails, try to re-add the academic record, swallowing any
failure of that compensation, and surface only the personal-delete error. -/
def delete_student (fs : Faults) (s : Store) (student_id : Int) :
    Store × Except ApiErr String :=
  let sid := toString student_id
  match locateStudent s .DBVS1 sid, locateStudent s .DBVS2 sid with
  | none, _ => (s, .error (.studentNotFound sid))
  | _, none => (s, .error (.studentNotFound sid))
  | some i1, some i2 =>
    let sA := ensureCol s i1.1 "students"
    match gwDel fs sA i1.1 "students" [sid] with
    | .error _ => (sA, .error (.deleteDbvs1Failed i1.1))
    | .ok s1 =>
      let sB := ensureCol s1 i2.1 "students"
      match gwDel fs sB i2.1 "students" [sid] with
      | .ok s2 => (s2, .ok sid)
      | .error _ =>
        match gwAdd fs sB i1.1 "students" ⟨sid, i1.2.1, i1.2.2⟩ with
        | .ok s2 => (s2, .error (.deleteDbvs2Failed i2.1))
        | .error _ => (sB, .error (.deleteDbvs2Failed i2.1))

/-- Outcome of apply_on_server inside upgrade_student_year, carried for the
cross-server rollback: an in-place update or a cross-partition move. -/
inductive UpgradeAction where
  | update (db : DbId) (prevMeta : List (String × Val))
  | move (fromDb toDb : DbId) (doc : String) (prevMeta : List (String × Val))
deriving DecidableEq, Repr

/-- apply_on_server of upgrade_student_year: update in place when old and
new year resolve to the same partition, otherwise add to the new partition
and delete from the old (compensating the add when the delete fails). -/
def applyOnServer (fs : Faults) (s : Store) (srv : Server) (sid : String)
    (doc : String) (meta : List (String × Val)) (curYear newYear : Int) :
    Store × Except ApiErr UpgradeAction :=
  match resolve_fragment srv curYear with
  | .error e => (s, .error e)
  | .ok oldDb =>
    match resolve_fragment srv newYear with
    | .error e => (s, .error e)
    | .ok newDb =>
      let newMeta := meta ++ [("study_year", .int newYear)]
      let s0 := ensureCol s oldDb "students"
      if newDb = oldDb then
        match gwUpd fs s0 oldDb "students" sid doc newMeta with
        | .ok s1 => (s1, .ok (.update oldDb meta))
        | .error _ => (s0, .error (.upgradeUpdateFailed srv oldDb))
      else
        let s1 := ensureCol s0 newDb "students"
        match gwAdd fs s1 newDb "students" ⟨sid, doc, newMeta⟩ with
        | .error _ => (s1, .error (.upgradeAddFailed srv newDb))
        | .ok s2 =>
          match gwDel fs s2 oldDb "students" [sid] with
          | .ok s3 => (s3, .ok (.move oldDb newDb doc meta))
          | .error _ =>
            match gwDel fs s2 newDb "students" [sid] with
            | .ok s3 => (s3, .error (.upgradeDeleteFailed srv oldDb))
            | .error _ => (s2, .error (.upgradeDeleteFailed srv oldDb))

/-- Rollback of the DBVS1 action when the DBVS2 step of
upgrade_student_year fails; every failure inside it is swallowed. -/
def undoDbvs1Action (fs : Faults) (s : Store) (sid : String) (origDoc : String) :
    UpgradeAction → Store
  | .update db prevMeta =>
    let s0 := ensureCol s db "students"
    match gwUpd fs s0 db "students" sid origDoc prevMeta with
    | .ok s1 => s1
    | .error _ => s0
  | .move fromDb toDb doc prevMeta =>
    let s0 := ensureCol s fromDb "students"
    let s1 := ensureCol s0 toDb "students"
    match gwAdd fs s1 fromDb "students" ⟨sid, doc, prevMeta⟩ with
    | .error _ => s1
    | .ok s2 =>
      match gwDel fs s2 toDb "students" [sid] with
      | .ok s3 => s3
      | .error _ => s2

/-- upgrade_student_year of src/api.py: locate the student in both domains,
check the two study_year values parse and agree and are below the maximum,
then apply the move or update on DBVS1 and DBVS2 in order, rolling the
DBVS1 change back (best-effort, failures swallowed) when DBVS2 fails. -/
def upgrade_student_year (fs : Faults) (s : Store) (student_id : Int) :
    Store × Except ApiErr (Int × Int) :=
  let sid := toString student_id
  match locateStudent s .DBVS1 sid, locateStudent s .DBVS2 sid with
  | none, _ => (s, .error (.studentNotFound sid))
  | _, none => (s, .error (.studentNotFound sid))
  | some i1, some i2 =>
    match studyYearOf i1.2.2, studyYearOf i2.2.2 with
    | none, _ => (s, .error .studyYearMissing)
    | _, none => (s, .error .studyYearMissing)
    | some y1, some y2 =>
      if y1 ≠ y2 then (s, .error .inconsistentStudyYear)
      else if y1 ≥ 4 then (s, .error .maxStudyYear)
      else
        match applyOnServer fs s .DBVS1 sid i1.2.1 i1.2.2 y1 (y1 + 1) with
        | (s1, .error e) => (s1, .error e)
        | (s1, .ok act1) =>
          match applyOnServer fs s1 .DBVS2 sid i2.2.1 i2.2.2 y1 (y1 + 1) with
          | (s2, .ok _) => (s2, .ok (y1, y1 + 1))
          | (s2, .error e) => (undoDbvs1Action fs s2 sid i1.2.1 act1, .error e)

/-- Empty store (all four databases hold no collections). -/
def emptyStore : Store :=
  { db11 := [], db12 := [], db21 := [], db22 := [] }

/-- Concrete valid insert request used by witnesses. -/
def inpW : StudentIn :=
  { document := "John profile"
    metadata := [("name", .str "John"), ("surname", .str "S"),
      ("email", .str "j@e.c"), ("final_score", .int 9),
      ("study_year", .int 2)] }

/-- Fault set forcing the personal-domain (DBVS2) students write to fail
for a year-2 insert. -/
def insFaults : Faults := [(.db21, "students", .add)]

/-- Store for the delete-student compensation counterexample: student 202
present in both domains at study_year 1. -/
def c3Store : Store :=
  { db11 := [("students",
      [⟨"202", "doc1", [("final_score", .int 7), ("study_year", .int 1)]⟩])]
    db12 := []
    db21 := [("students",
      [⟨"202", "doc2", [("student_id", .int 202), ("name", .str "A"),
        ("study_year", .int 1)]⟩])]
    db22 := [] }

/-- Faults making the DBVS2 students delete and every DBVS1/DBVS2 students
re-add fail: the forward personal step fails and so does each compensation. -/
def c3Faults : Faults :=
  [(.db21, "students", .del), (.db11, "students", .add), (.db22, "students", .add)]

/-- Store for the upgrade-year compensation witness: student 303 at
study_year 2 in both domains, so the upgrade crosses partitions. -/
def c3UpgStore : Store :=
  { db11 := [("students", [⟨"303", "d1", [("study_year", .int 2)]⟩])]
    db12 := []
    db21 := [("students", [⟨"303", "d2", [("study_year", .int 2)]⟩])]
    db22 := [] }

/-- Store for the inconsistent-year witness: the two domain records of
student 5 disagree on study_year. -/
def upgCexStore : Store :=
  { db11 := [("students", [⟨"5", "a", [("study_year", .int 2)]⟩])]
    db12 := []
    db21 := [("students", [⟨"5", "b", [("study_year", .int 3)]⟩])]
    db22 := [] }

/-- Store for the maximum-year witness: student 6 at study_year 4 in both
domains. -/
def upgMaxStore : Store :=
  { db11 := []
    db12 := [("students", [⟨"6", "a", [("study_year", .int 4)]⟩])]
    db21 := []
    db22 := [("students", [⟨"6", "b", [("study_year", .int 4)]⟩])] }

/-- Response of a successful delete_course. -/
structure DeleteCourseResp where
  courseId : String
  sourceDb : DbId
  deletedCourseReviews : Nat
  peerDb : DbId
deriving DecidableEq, Repr

/-- Course lookup across the personal-domain partitions, first hit wins
(partitions without a courses collection are skipped). -/
def findCourseRow (s : Store) (cid : String) : Option (DbId × Row) :=
  (serverDbs .DBVS2).foldr
    (fun d acc =>
      match colOf s d "courses" with
      | none => acc
      | some col =>
        match colGet col cid with
        | some r => some (d, r)
        | none => acc)
    none

/-- The hard-coded pairing of a DBVS2 database with its DBVS1 peer. -/
def peerDb1 : DbId → Option DbId
  | .db21 => some .db11
  | .db22 => some .db12
  | _ => none

/-- Exam phase of delete_course: when the source partition has an exam
under the course id, snapshot and delete it; if that delete fails, restore
the course from its snapshot before reporting. -/
def deleteCourseExamPhase (fs : Faults) (s1 : Store) (srcDb : DbId)
    (saved : Row) (cid : String) :
    Except (Store × ApiErr) (Store × Bool × Option Row) :=
  match colOf s1 srcDb "exams" with
  | none => .ok (s1, false, none)
  | some ecol =>
    match colGet ecol cid with
    | none => .ok (s1, false, none)
    | some er =>
      match gwDel fs s1 srcDb "exams" [cid] with
      | .ok s2 => .ok (s2, true, some er)
      | .error _ =>
        let sR := ensureCol s1 srcDb "courses"
        match gwAdd fs sR srcDb "courses" saved with
        | .ok s2 => .error (s2, .examDeleteFailedRolledBack srcDb)
        | .error _ => .error (sR, .examDeleteRestoreFailed srcDb)

/-- The review collection of the peer partition: course_review, falling
back to course_reviews, as delete_course probes both names. -/
def reviewColOf (s : Store) (peer : DbId) : Option (List Row) :=
  match colOf s peer "course_review" with
  | some c => some c
  | none => colOf s peer "course_reviews"

/-- The review ids delete_course collects: metadata carries a course_id key
whose str() equals the course id. -/
def reviewIdsToDelete (col : List Row) (cid : String) : List String :=
  (col.filter (fun r =>
    match metaGet r.meta "course_id" with
    | none => false
    | some v => pyStr v = cid)).map (·.id)

/-- Rollback branch of the review phase of delete_course: restore the
course, and the exam when it had been deleted; when any restore fails the
error names the restore failure, otherwise it reports the rollback. -/
def deleteCourseRollback (fs : Faults) (sCur : Store) (srcDb peer : DbId)
    (saved : Row) (examDeleted : Bool) (savedExam : Option Row) :
    Store × Except ApiErr DeleteCourseResp :=
  let sR0 := ensureCol sCur srcDb "courses"
  match gwAdd fs sR0 srcDb "courses" saved with
  | .ok sR1 =>
    if examDeleted then
      match savedExam with
      | some er =>
        let sR2 := ensureCol sR1 srcDb "exams"
        match gwAdd fs sR2 srcDb "exams" er with
        | .ok sR3 => (sR3, .error (.reviewsDeleteFailedRolledBack peer srcDb))
        | .error _ => (sR2, .error (.reviewsDeleteRestoreFailed peer))
      | none => (sR1, .error (.reviewsDeleteFailedRolledBack peer srcDb))
    else (sR1, .error (.reviewsDeleteFailedRolledBack peer srcDb))
  | .error _ =>
    if examDeleted then
      match savedExam with
      | some er =>
        let sR2 := ensureCol sR0 srcDb "exams"
        match gwAdd fs sR2 srcDb "exams" er with
        | .ok sR3 => (sR3, .error (.reviewsDeleteRestoreFailed peer))
        | .error _ => (sR2, .error (.reviewsDeleteRestoreFailed peer))
      | none => (sR0, .error (.reviewsDeleteRestoreFailed peer))
    else (sR0, .error (.reviewsDeleteRestoreFailed peer))

/-- delete_course of src/api.py.  The review-deletion step contains an
unconditional raise RuntimeError (line 397, advertised as a commented-out
failure simulation but left active) that fires whenever at least one
matching review exists, rolling the course (and exam) deletion back; the
success path is therefore only reachable with zero matching reviews and
always reports deleted_course_reviews = 0 (the statements performing the
actual deletion and count sit unreachably after the raise). -/
def delete_course (fs : Faults) (s : Store) (course_id : String) :
    Store × Except ApiErr DeleteCourseResp :=
  match findCourseRow s course_id with
  | none => (s, .error (.courseNotFound course_id))
  | some (srcDb, saved) =>
    match gwDel fs s srcDb "courses" [course_id] with
    | .error _ => (s, .error (.courseDeleteFailed srcDb))
    | .ok s1 =>
      match peerDb1 srcDb with
      | none => (s1, .error .unknownSourceDb)
      | some peer =>
        match deleteCourseExamPhase fs s1 srcDb saved course_id with
        | .error (sE, e) => (sE, .error e)
        | .ok (s2, examDeleted, savedExam) =>
          let idsToDelete :=
            match reviewColOf s2 peer with
            | none => []
            | some col => reviewIdsToDelete col course_id
          if idsToDelete ≠ [] then
            deleteCourseRollback fs s2 srcDb peer saved examDeleted savedExam
          else
            (s2, .ok ⟨course_id, srcDb, 0, peer⟩)

/-- Store mirroring the repository's own delete-course test: course 16 in
db22 with two linked reviews in db12. -/
def c1Store : Store :=
  { db11 := []
    db12 := [("course_review",
      [⟨"r1", "bad slides", [("course_id", .int 16)]⟩,
       ⟨"r2", "great content", [("course_id", .int 16)]⟩])]
    db21 := []
    db22 := [("courses",
      [⟨"16", "DB Systems", [("name", .str "Database Systems")]⟩])] }

/-- Python strip().lower() as applied to the move_course target name. -/
def pyStripLower (s : String) : String :=
  ⟨(((s.data.dropWhile (fun c => c = ' ')).reverse.dropWhile
      (fun c => c = ' ')).reverse).map Char.toLower⟩

/-- The two legal move targets. -/
def parseTargetDb (t : String) : Option DbId :=
  if t = "db21" then some .db21 else if t = "db22" then some .db22 else none

/-- Response of move_course. -/
inductive MoveResp where
  | moved (fromDb toDb : DbId) (movedReviews : Nat) (fromD1 toD1 : DbId)
  | alreadyThere (db : DbId)
deriving DecidableEq, Repr

/-- The _get_row helper of move_course: none when the collection is absent,
some none when the row is missing, some (some r) when found. -/
def getRowFull (s : Store) (d : DbId) (n : String) (rid : String) :
    Option (Option Row) :=
  match colOf s d n with
  | none => none
  | some col => some (colGet col rid)

/-- Add-or-update one entity back into the source partition and best-effort
delete it from the target (the target delete failure is swallowed); used by
both rollback blocks of move_course.  A failure of the source add/update
leaves the state unchanged and is reported. -/
def undoOne (fs : Faults) (s : Store) (srcDb tgtDb : DbId) (n : String)
    (r : Row) : Except Store Store :=
  match gwAddElseUpd fs s srcDb n r with
  | .error _ => .error s
  | .ok s1 =>
    let s2 := ensureCol s1 tgtDb n
    match gwDel fs s2 tgtDb n [r.id] with
    | .ok s3 => .ok s3
    | .error _ => .ok s2

/-- Rollback of the first phase of move_course, in reverse order (program,
exam, course), only for the entities already moved; a failure inside the
rollback itself upgrades the error. -/
def moveRollbackPhase1 (fs : Faults) (s : Store) (srcDb tgtDb : DbId)
    (courseRow : Row) (examRow progRow : Option Row)
    (movedCourse movedExam movedProg : Bool) : Store × ApiErr :=
  match (match movedProg, progRow with
    | true, some pr => undoOne fs s srcDb tgtDb "programs" pr
    | _, _ => .ok s) with
  | .error sE => (sE, .movePhase1RollbackFailed)
  | .ok sP =>
    match (match movedExam, examRow with
      | true, some er => undoOne fs sP srcDb tgtDb "exams" er
      | _, _ => .ok sP) with
    | .error sE => (sE, .movePhase1RollbackFailed)
    | .ok sE =>
      match (if movedCourse then undoOne fs sE srcDb tgtDb "courses" courseRow
        else .ok sE) with
      | .error sC => (sC, .movePhase1RollbackFailed)
      | .ok sC => (sC, .movePhase1Failed)

/-- One add-to-target-then-delete-from-source step of the first phase of
move_course; an error carries the state at the failure. -/
def moveOneEntity (fs : Faults) (s : Store) (srcDb tgtDb : DbId) (n : String)
    (r : Row) : Except Store Store :=
  let s0 := ensureCol s tgtDb n
  match gwAddElseUpd fs s0 tgtDb n r with
  | .error _ => .error s0
  | .ok s1 =>
    match gwDel fs s1 srcDb n [r.id] with
    | .error _ => .error s1
    | .ok s2 => .ok s2

/-- Program step of the first phase (shared by the exam-present and
exam-absent paths). -/
def movePhase1Prog (fs : Faults) (s : Store) (srcDb tgtDb : DbId)
    (courseRow : Row) (examRow progRow : Option Row) (movedExam : Bool) :
    Except (Store × ApiErr) Store :=
  match progRow with
  | none => .ok s
  | some pr =>
    match moveOneEntity fs s srcDb tgtDb "programs" pr with
    | .error sE =>
      .error (moveRollbackPhase1 fs sE srcDb tgtDb courseRow examRow progRow
        true movedExam false)
    | .ok s' => .ok s'

/-- First phase of move_course: move course, then exam, then program from
the source personal partition to the target one, unwinding the already
moved entities on any failure. -/
def movePhase1 (fs : Faults) (s : Store) (srcDb tgtDb : DbId)
    (courseRow : Row) (examRow progRow : Option Row) :
    Except (Store × ApiErr) Store :=
  match moveOneEntity fs s srcDb tgtDb "courses" courseRow with
  | .error sE =>
    .error (moveRollbackPhase1 fs sE srcDb tgtDb courseRow examRow progRow
      false false false)
  | .ok s2 =>
    match examRow with
    | none => movePhase1Prog fs s2 srcDb tgtDb courseRow examRow progRow false
    | some er =>
      match moveOneEntity fs s2 srcDb tgtDb "exams" er with
      | .error sE =>
        .error (moveRollbackPhase1 fs sE srcDb tgtDb courseRow examRow progRow
          true false false)
      | .ok s5 =>
        movePhase1Prog fs s5 srcDb tgtDb courseRow examRow progRow true

/-- Per-review migration loop of move_course: each matching review (str() of
its course_id metadata equals the course id, missing keys compare as
"None") is added to the target academic partition; the accumulated moved
ids are returned, and a failed add stops the loop. -/
def moveReviewsLoop (fs : Faults) (tgtD : DbId) (cid : String) :
    List Row → Store → List String → Store × List String × Bool
  | [], s, acc => (s, acc, true)
  | r :: rest, s, acc =>
    if pyStrOpt (metaGet r.meta "course_id") = cid then
      match gwAddElseUpd fs s tgtD "course_review" r with
      | .error _ => (s, acc, false)
      | .ok s' => moveReviewsLoop fs tgtD cid rest s' (acc ++ [r.id])
    else moveReviewsLoop fs tgtD cid rest s acc

/-- Second phase of move_course: migrate the matching reviews between the
paired academic partitions (add each to the target, then delete all moved
ones from the source). -/
def moveReviewsPhase (fs : Faults) (s : Store) (srcD tgtD : DbId)
    (cid : String) : Store × List String × Bool :=
  match colOf s srcD "course_review" with
  | none => (s, [], true)
  | some col =>
    let s0 := ensureCol s tgtD "course_review"
    match moveReviewsLoop fs tgtD cid col s0 [] with
    | (s1, movedIds, false) => (s1, movedIds, false)
    | (s1, movedIds, true) =>
      if movedIds ≠ [] then
        match gwDel fs s1 srcD "course_review" movedIds with
        | .ok s2 => (s2, movedIds, true)
        | .error _ => (s1, movedIds, false)
      else (s1, movedIds, true)

/-- Rollback of the review phase: program, exam and course are moved back
to the source personal partition, and the reviews already added to the
target academic partition are removed (best effort); a failure of an
unprotected restore upgrades the error. -/
def moveRollbackPhase2 (fs : Faults) (s : Store) (srcDb tgtDb : DbId)
    (courseRow : Row) (examRow progRow : Option Row) (tgtD1 : DbId)
    (movedIds : List String) : Store × ApiErr :=
  match (match progRow with
    | some pr => undoOne fs s srcDb tgtDb "programs" pr
    | none => .ok s) with
  | .error sE => (sE, .moveReviewsRollbackFailed)
  | .ok sP =>
    match (match examRow with
      | some er => undoOne fs sP srcDb tgtDb "exams" er
      | none => .ok sP) with
    | .error sE => (sE, .moveReviewsRollbackFailed)
    | .ok sE =>
      match undoOne fs sE srcDb tgtDb "courses" courseRow with
      | .error sC => (sC, .moveReviewsRollbackFailed)
      | .ok sC =>
        if movedIds ≠ [] then
          let sD := ensureCol sC tgtD1 "course_review"
          match gwDel fs sD tgtD1 "course_review" movedIds with
          | .ok sF => (sF, .moveReviewsFailed)
          | .error _ => (sD, .moveReviewsFailed)
        else (sC, .moveReviewsFailed)

/-- move_course of src/api.py: validate the target, locate the course in
the personal domain, move course/exam/program to the target partition, then
migrate the matching reviews between the paired academic partitions; a
review-phase failure unwinds the whole first phase and removes the reviews
already added to the target. -/
def move_course (fs : Faults) (s : Store) (course_id : String)
    (targetRaw : String) : Store × Except ApiErr MoveResp :=
  match parseTargetDb (pyStripLower targetRaw) with
  | none => (s, .error .badTargetDb)
  | some tgtDb =>
    match findCourseRow s course_id with
    | none => (s, .error (.courseNotFound course_id))
    | some (srcDb, courseRow) =>
      if srcDb = tgtDb then (s, .ok (.alreadyThere tgtDb))
      else
        let examRow : Option Row :=
          match metaGet courseRow.meta "exam_id" with
          | none => none
          | some ev =>
            match getRowFull s srcDb "exams" (pyStr ev) with
            | some (some r) => some r
            | _ => none
        let progRow : Option Row :=
          match metaGet courseRow.meta "program_id" with
          | none => none
          | some pv =>
            match getRowFull s srcDb "programs" (pyStr pv) with
            | some (some r) => some r
            | _ => none
        match movePhase1 fs s srcDb tgtDb courseRow examRow progRow with
        | .error (sE, e) => (sE, .error e)
        | .ok s2 =>
          let srcD1 := if srcDb = DbId.db21 then DbId.db11 else DbId.db12
          let tgtD1 := if tgtDb = DbId.db21 then DbId.db11 else DbId.db12
          match moveReviewsPhase fs s2 srcD1 tgtD1 course_id with
          | (s3, movedIds, true) =>
            (s3, .ok (.moved srcDb tgtDb movedIds.length srcD1 tgtD1))
          | (s3, movedIds, false) =>
            match moveRollbackPhase2 fs s3 srcDb tgtDb courseRow examRow
                progRow tgtD1 movedIds with
            | (s4, e) => (s4, .error e)

/-- Scenario store for the review-phase rollback claim: course "5" in db21
with a linked exam "7" and program "9", and an arbitrary review collection
in db11; db22 and db12 are empty. -/
def c5Store (dc de dp : String) (mcExtra me mp : List (String × Val))
    (rs : List Row) : Store :=
  { db11 := [("course_review", rs)]
    db12 := []
    db21 := [("courses",
      [⟨"5", dc, mcExtra ++ [("exam_id", .int 7), ("program_id", .int 9)]⟩]),
      ("exams", [⟨"7", de, me⟩]),
      ("programs", [⟨"9", dp, mp⟩])]
    db22 := [] }

/-- Fault set failing the delete-from-source step of the review migration. -/
def c5Faults : Faults := [(.db11, "course_review", .del)]

/-- The store state produced by the review-migration loop: every review
pushed in order into the db12 course_review collection. -/
def c5LoopState (s : Store) (rs : List Row) : Store :=
  rs.foldl
    (fun st r =>
      putCol st .db12 "course_review"
        (colAdd ((colOf st .db12 "course_review").getD []) r)) s

/-! Store access lemmas. -/

theorem dbGetCol?_dbSetCol (db : Db) (n : String) (col : List Row) (n' : String) :
    dbGetCol? (dbSetCol db n col) n' = if n' = n then some col else dbGetCol? db n' := by
  induction db with
  | nil =>
    by_cases h : n' = n
    · subst h; simp [dbSetCol, dbGetCol?, List.find?]
    · have h' : ¬ n = n' := fun e => h e.symm
      simp [dbSetCol, dbGetCol?, List.find?, h, h']
  | cons p db ih =>
    by_cases hp : p.1 = n
    · by_cases h : n' = n
      · subst h; simp [dbSetCol, dbGetCol?, List.find?, hp]
      · have h' : ¬ n = n' := fun e => h e.symm
        have hpn : ¬ p.1 = n' := by rw [hp]; exact h'
        simp [dbSetCol, dbGetCol?, List.find?, hp, h, h', hpn]
    · by_cases hq : p.1 = n'
      · have h : ¬ n' = n := fun e => hp (by rw [hq, e])
        simp [dbSetCol, dbGetCol?, List.find?, hp, hq, h]
      · have hstep : dbGetCol? (p :: dbSetCol db n col) n' =
            dbGetCol? (dbSetCol db n col) n' := by
          simp [dbGetCol?, List.find?, hq]
        simp only [dbSetCol, if_neg hp]
        rw [hstep, ih]
        by_cases h : n' = n
        · simp [h]
        · simp [h, dbGetCol?, List.find?, hq]

theorem storeGet_set (s : Store) (d : DbId) (db : Db) (d' : DbId) :
    (s.set d db).get d' = if d' = d then db else s.get d' := by
  cases d <;> cases d' <;> simp [Store.set, Store.get]

theorem colOf_putCol (s : Store) (d : DbId) (n : String) (col : List Row)
    (d' : DbId) (n' : String) :
    colOf (putCol s d n col) d' n' =
      if d' = d then (if n' = n then some col else colOf s d n') else colOf s d' n' := by
  by_cases hd : d' = d
  · subst hd
    simp [colOf, putCol, storeGet_set, dbGetCol?_dbSetCol]
  · simp [colOf, putCol, storeGet_set, hd]

theorem colOf_ensureCol_getD (s : Store) (d : DbId) (n : String) (d' : DbId)
    (n' : String) :
    ((colOf (ensureCol s d n) d' n').getD []) = (colOf s d' n').getD [] := by
  unfold ensureCol
  by_cases h : (colOf s d n).isSome
  · simp [h]
  · by_cases hd : d' = d
    · subst hd
      by_cases hn : n' = n
      · subst hn
        simp [h, colOf_putCol]
        cases hc : colOf s d' n'
        · simp
        · simp [hc] at h
      · simp [h, colOf_putCol, hn]
    · simp [h, colOf_putCol, hd]

/-! Allocator lemmas (claim C9). -/

theorem alloc_fold_filterMap (ids : List String) (m : Int) :
    ids.foldl
        (fun acc rid =>
          match pyInt? rid with
          | some v => if v > acc then v else acc
          | none => acc) m
      = (ids.filterMap pyInt?).foldl max m := by
  induction ids generalizing m with
  | nil => rfl
  | cons rid rest ih =>
    cases h : pyInt? rid with
    | none => simp [List.filterMap_cons, h, ih]
    | some v =>
      have hm : (if v > m then v else m) = max m v := by
        rcases le_or_lt v m with hle | hlt
        · rw [if_neg (not_lt.mpr hle), max_eq_left hle]
        · rw [if_pos hlt, max_eq_right hlt.le]
      simp [List.filterMap_cons, h, ih, hm]

theorem allocScan_snd (ds : List DbId) :
    ∀ (s : Store) (m : Int),
      (allocScan ds s m).2 =
        ((ds.flatMap (fun d => ((colOf s d "students").getD []).map (·.id))).filterMap
            pyInt?).foldl max m := by
  induction ds with
  | nil => intro s m; rfl
  | cons d rest ih =>
    intro s m
    simp only [allocScan]
    rw [ih]
    simp only [colOf_ensureCol_getD]
    rw [alloc_fold_filterMap, List.flatMap_cons, List.filterMap_append,
      List.foldl_append]

/-- Claim C9 (amended): the allocated id is one plus the maximum of 0 and all
integer-parsing student ids across the four partitions. -/
theorem claim9_alloc_amended (s : Store) :
    (allocate_next_student_id s).2 = 1 + (parsedStudentIds s).foldl max 0 := by
  unfold allocate_next_student_id parsedStudentIds studentIdsAll
  rw [allocScan_snd]
  omega

/-- Claim C9 counterexample: with a single stored student id "-2" (which
parses as the integer -2), the allocator returns 1, while one plus the
maximum parsed id would be -1. -/
theorem claim9_alloc_cex :
    parsedStudentIds allocCexStore = [-2] ∧
    (allocate_next_student_id allocCexStore).2 = 1 ∧
    ¬ ((allocate_next_student_id allocCexStore).2 = 1 + (-2)) := by
  decide

/-- Claim C7: for each server and every study_year in 1..4 exactly one
fragment rule matches and resolve_fragment returns its database; for every
study_year outside all ranges, resolve_fragment fails with the routing
error. -/
theorem claim7_resolve (srv : Server) (y : Int) :
    ((1 ≤ y ∧ y ≤ 4) →
      ∃ d, matchingDbs srv y = [d] ∧ resolve_fragment srv y = .ok d)
    ∧ ((y < 1 ∨ 4 < y) → resolve_fragment srv y = .error (.noFragment srv y)) := by
  constructor
  · rintro ⟨h1, h4⟩
    interval_cases y <;> cases srv <;>
      first
      | exact ⟨.db11, by decide, by decide⟩
      | exact ⟨.db12, by decide, by decide⟩
      | exact ⟨.db21, by decide, by decide⟩
      | exact ⟨.db22, by decide, by decide⟩
  · intro h
    have b1 : (decide ((1 : Int) ≤ y) && decide (y ≤ 2)) = false := by
      rw [Bool.eq_false_iff]
      simp only [ne_eq, Bool.and_eq_true, decide_eq_true_eq, not_and]
      omega
    have b2 : (decide ((3 : Int) ≤ y) && decide (y ≤ 4)) = false := by
      rw [Bool.eq_false_iff]
      simp only [ne_eq, Bool.and_eq_true, decide_eq_true_eq, not_and]
      omega
    cases srv <;> simp [resolve_fragment, FRAGMENTS, List.find?, b1, b2]

/-- Claim C7 witness: year 2 on DBVS1 resolves to exactly one partition, and
year 5 on DBVS2 is a routing error. -/
theorem claim7_resolve_witness :
    (∃ d, matchingDbs .DBVS1 2 = [d] ∧ resolve_fragment .DBVS1 2 = .ok d) ∧
    resolve_fragment .DBVS2 5 = .error (.noFragment .DBVS2 5) :=
  ⟨(claim7_resolve .DBVS1 2).1 (by decide), (claim7_resolve .DBVS2 5).2 (by decide)⟩

/-! Aggregation lemmas (claims C2 and C10). -/

theorem metaGet_append (a b : List (String × Val)) (k : String) :
    metaGet (a ++ b) k = (metaGet b k).or (metaGet a k) := by
  unfold metaGet
  rw [List.reverse_append, List.find?_append]
  cases b.reverse.find? (fun p => p.1 = k) <;> simp [Option.or]

theorem match_some_or (o b : Option Val) :
    (match o with | some v => some v | none => b) = o.or b := by
  cases o <;> simp [Option.or]

theorem aggFind_mem (agg : List (String × String × List (String × Val)))
    (mid : String) (e : String × List (String × Val))
    (h : aggFind agg mid = some e) : mid ∈ agg.map (·.1) := by
  unfold aggFind at h
  cases hf : agg.find? (fun p => p.1 = mid) with
  | none => rw [hf] at h; exact absurd h (by simp)
  | some p =>
    have hp : p.1 = mid := by simpa using List.find?_some hf
    exact hp ▸ List.mem_map_of_mem (·.1) (List.mem_of_find?_eq_some hf)

theorem mkStudentOut_mem (s : Store) (mid : String)
    (h : mid ∈ (aggregateServer s .DBVS1).map (·.1) ∨
      mid ∈ (aggregateServer s .DBVS2).map (·.1)) :
    mkStudentOut (aggregateServer s .DBVS1) (aggregateServer s .DBVS2) mid ∈
      get_all_students s := by
  unfold get_all_students
  refine List.mem_map_of_mem _ (List.mem_dedup.mpr ?_)
  rcases h with h | h
  · exact List.mem_append_left _ h
  · exact List.mem_append_right _ h

/-- Claim C2 (amended): when a student id has records in both domains, the
aggregated row takes the academic-domain (DBVS1) record's value for every
overlapping metadata key, falling back to the personal-domain (DBVS2)
record's value, with null for fields absent from both, and the raw id as
student_id when neither record carries one. -/
theorem claim2_academic_precedence (s : Store) (mid : String) (doc1 : String)
    (m1 : List (String × Val)) (doc2 : String) (m2 : List (String × Val))
    (h1 : aggFind (aggregateServer s .DBVS1) mid = some (doc1, m1))
    (h2 : aggFind (aggregateServer s .DBVS2) mid = some (doc2, m2)) :
    ∃ out ∈ get_all_students s, out.id = mid ∧
      out.review = some doc1 ∧ out.motivational_letter = some doc2 ∧
      out.study_year = (metaGet m1 "study_year").or (metaGet m2 "study_year") ∧
      out.name = (metaGet m1 "name").or (metaGet m2 "name") ∧
      out.surname = (metaGet m1 "surname").or (metaGet m2 "surname") ∧
      out.email = (metaGet m1 "email").or (metaGet m2 "email") ∧
      out.final_score = (metaGet m1 "final_score").or (metaGet m2 "final_score") ∧
      out.timestamp = (metaGet m1 "timestamp").or (metaGet m2 "timestamp") ∧
      out.student_id =
        ((metaGet m1 "student_id").or (metaGet m2 "student_id")).or
          (some (.str mid)) := by
  refine ⟨mkStudentOut (aggregateServer s .DBVS1) (aggregateServer s .DBVS2) mid,
    mkStudentOut_mem s mid (Or.inl (aggFind_mem _ _ _ h1)), ?_⟩
  simp [mkStudentOut, h1, h2, mergedMetaOf, metaGet_append, match_some_or]

/-- Claim C2 counterexample: with the academic record of student "7" saying
study_year 2 and the personal record saying 3, the aggregation returns 2
(the academic value), not the personal-domain value 3 the claim demands. -/
theorem claim2_personal_precedence_cex :
    (get_all_students mergeCexStore).map (fun o => (o.id, o.study_year)) =
      [("7", some (Val.int 2))] ∧ Val.int 2 ≠ Val.int 3 := by decide

/-- Claim C2 witness: concrete both-domain student evaluated through the
amended precedence theorem. -/
theorem claim2_academic_precedence_witness :
    ∃ out ∈ get_all_students mergeCexStore, out.id = "7" ∧
      out.review = some "d1" ∧ out.motivational_letter = some "d2" ∧
      out.study_year = some (Val.int 2) ∧ out.name = some (Val.str "A") ∧
      out.surname = some (Val.str "B") ∧ out.email = some (Val.str "a@b.c") ∧
      out.final_score = some (Val.int 9) ∧ out.timestamp = some (Val.str "t") ∧
      out.student_id = some (Val.int 7) := by
  have h := claim2_academic_precedence mergeCexStore "7" "d1"
    [("final_score", .int 9), ("study_year", .int 2), ("timestamp", .str "t")]
    "d2"
    [("student_id", .int 7), ("name", .str "A"), ("surname", .str "B"),
      ("email", .str "a@b.c"), ("study_year", .int 3)]
    (by decide) (by decide)
  simpa using h

/-- Claim C10: a student id present in only one domain still yields an
aggregated row; its fields come from that single record (hence null for
every key the record does not carry), and student_id falls back to the raw
record id when no student_id metadata key is present. -/
theorem claim10_single_domain (s : Store) (mid : String) :
    (∀ doc1 m1, aggFind (aggregateServer s .DBVS1) mid = some (doc1, m1) →
      aggFind (aggregateServer s .DBVS2) mid = none →
      ∃ out ∈ get_all_students s, out.id = mid ∧
        out.review = some doc1 ∧ out.motivational_letter = none ∧
        out.study_year = metaGet m1 "study_year" ∧
        out.name = metaGet m1 "name" ∧ out.surname = metaGet m1 "surname" ∧
        out.email = metaGet m1 "email" ∧
        out.final_score = metaGet m1 "final_score" ∧
        out.timestamp = metaGet m1 "timestamp" ∧
        out.student_id = (metaGet m1 "student_id").or (some (.str mid)))
    ∧ (∀ doc2 m2, aggFind (aggregateServer s .DBVS1) mid = none →
      aggFind (aggregateServer s .DBVS2) mid = some (doc2, m2) →
      ∃ out ∈ get_all_students s, out.id = mid ∧
        out.review = none ∧ out.motivational_letter = some doc2 ∧
        out.study_year = metaGet m2 "study_year" ∧
        out.name = metaGet m2 "name" ∧ out.surname = metaGet m2 "surname" ∧
        out.email = metaGet m2 "email" ∧
        out.final_score = metaGet m2 "final_score" ∧
        out.timestamp = metaGet m2 "timestamp" ∧
        out.student_id = (metaGet m2 "student_id").or (some (.str mid))) := by
  constructor
  · intro doc1 m1 h1 h2
    refine ⟨mkStudentOut (aggregateServer s .DBVS1) (aggregateServer s .DBVS2) mid,
      mkStudentOut_mem s mid (Or.inl (aggFind_mem _ _ _ h1)), ?_⟩
    simp [mkStudentOut, h1, h2, mergedMetaOf, match_some_or]
  · intro doc2 m2 h1 h2
    refine ⟨mkStudentOut (aggregateServer s .DBVS1) (aggregateServer s .DBVS2) mid,
      mkStudentOut_mem s mid (Or.inr (aggFind_mem _ _ _ h2)), ?_⟩
    simp [mkStudentOut, h1, h2, mergedMetaOf, match_some_or]

/-- Claim C10 witness: student "9" stored only in the academic domain and
student "8" stored only in the personal domain both appear in the
aggregation, with nulls and the student_id fallback. -/
theorem claim10_single_domain_witness :
    (∃ out ∈ get_all_students singleDomainStore, out.id = "9" ∧
      out.review = some "r9" ∧ out.motivational_letter = none ∧
      out.study_year = none ∧ out.name = none ∧ out.surname = none ∧
      out.email = none ∧ out.final_score = some (Val.int 5) ∧
      out.timestamp = none ∧ out.student_id = some (Val.str "9"))
    ∧ (∃ out ∈ get_all_students singleDomainStore, out.id = "8" ∧
      out.review = none ∧ out.motivational_letter = some "m8" ∧
      out.study_year = none ∧ out.name = some (Val.str "N") ∧
      out.surname = none ∧ out.email = none ∧ out.final_score = none ∧
      out.timestamp = none ∧ out.student_id = some (Val.str "8")) := by
  constructor
  · have h := (claim10_single_domain singleDomainStore "9").1 "r9"
      [("final_score", .int 5)] (by decide) (by decide)
    simpa using h
  · have h := (claim10_single_domain singleDomainStore "8").2 "m8"
      [("name", .str "N")] (by decide) (by decide)
    simpa using h

/-! Gateway and collection lemmas. -/

theorem gwAdd_ok {fs : Faults} {d : DbId} {n : String}
    (h : faulted fs d n .add = false) (s : Store) (r : Row) :
    gwAdd fs s d n r = .ok (putCol s d n (colAdd ((colOf s d n).getD []) r)) := by
  simp [gwAdd, h]

theorem gwAdd_fault {fs : Faults} {d : DbId} {n : String}
    (h : faulted fs d n .add = true) (s : Store) (r : Row) :
    gwAdd fs s d n r = .error .fault := by
  simp [gwAdd, h]

theorem gwDel_ok {fs : Faults} {d : DbId} {n : String}
    (h : faulted fs d n .del = false) (s : Store) (ids : List String) :
    gwDel fs s d n ids =
      .ok (putCol s d n (colDeleteIds ((colOf s d n).getD []) ids)) := by
  simp [gwDel, h]

theorem gwDel_fault {fs : Faults} {d : DbId} {n : String}
    (h : faulted fs d n .del = true) (s : Store) (ids : List String) :
    gwDel fs s d n ids = .error .fault := by
  simp [gwDel, h]

theorem colGet_colAdd_self (col : List Row) (r : Row) :
    colGet (colAdd col r) r.id = some r := by
  induction col with
  | nil => simp [colAdd, colGet, List.find?]
  | cons x col ih =>
    by_cases hx : x.id = r.id
    · simp [colAdd, colGet, List.find?, hx]
    · cases h : col.any (fun y => y.id = r.id) with
      | true =>
        have hcons : (x :: col).any (fun y => y.id = r.id) = true := by
          simp [List.any_cons, h]
        have hmap : colAdd (x :: col) r =
            x :: col.map (fun y => if y.id = r.id then r else y) := by
          simp [colAdd, hcons, hx]
        rw [hmap]
        have ihm : colGet (col.map (fun y => if y.id = r.id then r else y)) r.id =
            some r := by
          have : colAdd col r = col.map (fun y => if y.id = r.id then r else y) := by
            simp [colAdd, h]
          rw [← this]; exact ih
        simpa [colGet, List.find?, hx] using ihm
      | false =>
        have hcons : (x :: col).any (fun y => y.id = r.id) = false := by
          simp [List.any_cons, h, hx]
        have happ : colAdd (x :: col) r = x :: (col ++ [r]) := by
          simp [colAdd, hcons]
        rw [happ]
        have ihm : colGet (col ++ [r]) r.id = some r := by
          have : colAdd col r = col ++ [r] := by simp [colAdd, h]
          rw [← this]; exact ih
        simpa [colGet, List.find?, hx] using ihm

theorem mem_colDeleteIds_singleton {col : List Row} {x : String} {r : Row}
    (h : r ∈ colDeleteIds col [x]) : r.id ≠ x := by
  unfold colDeleteIds at h
  have := List.of_mem_filter h
  simpa using this

theorem colGet_colDeleteIds_self (col : List Row) (x : String) :
    colGet (colDeleteIds col [x]) x = none := by
  unfold colGet
  rw [List.find?_eq_none]
  intro r hr
  simpa using mem_colDeleteIds_singleton hr

theorem colOf_ensureCol_ne {d d' : DbId} (h : d' ≠ d) (s : Store)
    (n n' : String) :
    colOf (ensureCol s d n) d' n' = colOf s d' n' := by
  unfold ensureCol
  split
  · rfl
  · rw [colOf_putCol]; simp [h]

theorem locate_foldr_mem (s : Store) (sid : String) (ds : List DbId)
    (i : DbId × String × List (String × Val))
    (h : (ds.foldr
        (fun d acc =>
          match colOf s d "students" with
          | none => acc
          | some col =>
            match colGet col sid with
            | some r => some (d, r.doc, r.meta)
            | none => acc)
        none) = some i) : i.1 ∈ ds := by
  induction ds with
  | nil => exact absurd h (by simp)
  | cons d rest ih =>
    simp only [List.foldr] at h
    cases hc : colOf s d "students" with
    | none =>
      simp only [hc] at h
      exact List.mem_cons_of_mem _ (ih h)
    | some col =>
      simp only [hc] at h
      cases hg : colGet col sid with
      | none =>
        simp only [hg] at h
        exact List.mem_cons_of_mem _ (ih h)
      | some r =>
        simp only [hg] at h
        injection h with h'
        rw [← h']
        exact List.mem_cons_self _ _

theorem locateStudent_db_mem {s : Store} {srv : Server} {sid : String}
    {i : DbId × String × List (String × Val)}
    (h : locateStudent s srv sid = some i) : i.1 ∈ serverDbs srv :=
  locate_foldr_mem s sid (serverDbs srv) i h

theorem resolve_dbvs1_mem {y : Int} {d : DbId}
    (h : resolve_fragment .DBVS1 y = .ok d) : d = .db11 ∨ d = .db12 := by
  unfold resolve_fragment at h
  cases hf : (FRAGMENTS .DBVS1).find?
      (fun f => decide (f.lo ≤ y) && decide (y ≤ f.hi)) with
  | none => rw [hf] at h; exact absurd h (by simp)
  | some f =>
    rw [hf] at h
    injection h with h'
    have hm := List.mem_of_find?_eq_some hf
    simp only [FRAGMENTS, List.mem_cons, List.not_mem_nil, or_false] at hm
    have hcases : f.database = .db11 ∨ f.database = .db12 := by
      rcases hm with rfl | rfl
      · exact Or.inl rfl
      · exact Or.inr rfl
    rw [h'] at hcases
    exact hcases

theorem resolve_dbvs2_mem {y : Int} {d : DbId}
    (h : resolve_fragment .DBVS2 y = .ok d) : d = .db21 ∨ d = .db22 := by
  unfold resolve_fragment at h
  cases hf : (FRAGMENTS .DBVS2).find?
      (fun f => decide (f.lo ≤ y) && decide (y ≤ f.hi)) with
  | none => rw [hf] at h; exact absurd h (by simp)
  | some f =>
    rw [hf] at h
    injection h with h'
    have hm := List.mem_of_find?_eq_some hf
    simp only [FRAGMENTS, List.mem_cons, List.not_mem_nil, or_false] at hm
    have hcases : f.database = .db21 ∨ f.database = .db22 := by
      rcases hm with rfl | rfl
      · exact Or.inl rfl
      · exact Or.inr rfl
    rw [h'] at hcases
    exact hcases

theorem resolve_distinct {y : Int} {d1 d2 : DbId}
    (h1 : resolve_fragment .DBVS1 y = .ok d1)
    (h2 : resolve_fragment .DBVS2 y = .ok d2) : d1 ≠ d2 := by
  rcases resolve_dbvs1_mem h1 with e | e <;> rcases resolve_dbvs2_mem h2 with f | f <;>
    subst e <;> subst f <;> decide

/-- Claim C8: a successful insert leaves a record under the allocated id in
the resolved partition of each domain, both carrying the submitted document
and the same study_year. -/
theorem claim8_insert_vertical (fs : Faults) (now : String) (s : Store)
    (inp : StudentIn) (sy : Int) (d1 d2 : DbId)
    (hval : validateStudent inp = .ok sy)
    (hok2 : dbvs2MetaOk inp = true)
    (hr1 : resolve_fragment .DBVS1 sy = .ok d1)
    (hr2 : resolve_fragment .DBVS2 sy = .ok d2)
    (hf1 : faulted fs d1 "students" .add = false)
    (hf2 : faulted fs d2 "students" .add = false) :
    (insert_student fs now s inp).2 = .ok (allocate_next_student_id s).2 ∧
    colGet ((colOf (insert_student fs now s inp).1 d1 "students").getD [])
        (toString (allocate_next_student_id s).2) =
      some ⟨toString (allocate_next_student_id s).2, inp.document,
        dbvs1MetaFor inp now sy⟩ ∧
    colGet ((colOf (insert_student fs now s inp).1 d2 "students").getD [])
        (toString (allocate_next_student_id s).2) =
      some ⟨toString (allocate_next_student_id s).2, inp.document,
        dbvs2MetaFor inp (allocate_next_student_id s).2 sy⟩ ∧
    metaGet (dbvs1MetaFor inp now sy) "study_year" = some (.int sy) ∧
    metaGet (dbvs2MetaFor inp (allocate_next_student_id s).2 sy) "study_year" =
      some (.int sy) := by
  have hd : d1 ≠ d2 := resolve_distinct hr1 hr2
  unfold insert_student
  simp only [hval, hr1, hr2, hok2, if_true, gwAdd_ok hf1, gwAdd_ok hf2]
  refine ⟨trivial, ?_, ?_, rfl, rfl⟩
  · rw [colOf_putCol, if_neg hd, colOf_ensureCol_ne hd, colOf_putCol,
      if_pos rfl, if_pos rfl]
    exact colGet_colAdd_self _ _
  · rw [colOf_putCol, if_pos rfl, if_pos rfl]
    exact colGet_colAdd_self _ _

/-- Claim C8 witness: inserting a concrete year-2 student into the empty
store succeeds with id 1 and both partition records present and matching. -/
theorem claim8_insert_vertical_witness :
    (insert_student [] "T" emptyStore inpW).2 =
      .ok (allocate_next_student_id emptyStore).2 ∧
    colGet ((colOf (insert_student [] "T" emptyStore inpW).1 .db11 "students").getD [])
        (toString (allocate_next_student_id emptyStore).2) =
      some ⟨toString (allocate_next_student_id emptyStore).2, inpW.document,
        dbvs1MetaFor inpW "T" 2⟩ ∧
    colGet ((colOf (insert_student [] "T" emptyStore inpW).1 .db21 "students").getD [])
        (toString (allocate_next_student_id emptyStore).2) =
      some ⟨toString (allocate_next_student_id emptyStore).2, inpW.document,
        dbvs2MetaFor inpW (allocate_next_student_id emptyStore).2 2⟩ ∧
    metaGet (dbvs1MetaFor inpW "T" 2) "study_year" = some (.int 2) ∧
    metaGet (dbvs2MetaFor inpW (allocate_next_student_id emptyStore).2 2)
        "study_year" = some (.int 2) :=
  claim8_insert_vertical [] "T" emptyStore inpW 2 .db11 .db21 (by decide)
    (by decide) (by decide) (by decide) (by decide) (by decide)

/-- Claim C4: when the personal-domain write of insert_student fails (and
the compensating delete does not), the academic record just written is
deleted again, the academic partition holds no record under the allocated
id, and the operation reports the failure. -/
theorem claim4_insert_rollback (fs : Faults) (now : String) (s : Store)
    (inp : StudentIn) (sy : Int) (d1 d2 : DbId)
    (hval : validateStudent inp = .ok sy)
    (hok2 : dbvs2MetaOk inp = true)
    (hr1 : resolve_fragment .DBVS1 sy = .ok d1)
    (hr2 : resolve_fragment .DBVS2 sy = .ok d2)
    (hf1 : faulted fs d1 "students" .add = false)
    (hf2 : faulted fs d2 "students" .add = true)
    (hfd : faulted fs d1 "students" .del = false) :
    (insert_student fs now s inp).2 = .error (.insertDbvs2Failed d2) ∧
    ∀ r ∈ (colOf (insert_student fs now s inp).1 d1 "students").getD [],
      r.id ≠ toString (allocate_next_student_id s).2 := by
  unfold insert_student
  simp only [hval, hr1, hr2, hok2, if_true, gwAdd_ok hf1, gwAdd_fault hf2,
    gwDel_ok hfd]
  refine ⟨trivial, ?_⟩
  rw [colOf_putCol, if_pos rfl, if_pos rfl]
  intro r hr
  exact mem_colDeleteIds_singleton hr

/-- Claim C4 witness: the concrete year-2 insert with the DBVS2 write
forced to fail reports the failure and leaves db11 with no record under the
allocated id. -/
theorem claim4_insert_rollback_witness :
    (insert_student insFaults "T" emptyStore inpW).2 =
      .error (.insertDbvs2Failed .db21) ∧
    ∀ r ∈ (colOf (insert_student insFaults "T" emptyStore inpW).1 .db11
        "students").getD [],
      r.id ≠ toString (allocate_next_student_id emptyStore).2 :=
  claim4_insert_rollback insFaults "T" emptyStore inpW 2 .db11 .db21
    (by decide) (by decide) (by decide) (by decide) (by decide) (by decide)
    (by decide)

/-- Claim C6: upgrade_student_year fails with not-found when the student is
absent from either domain, with the inconsistent-state error when the two
study_year values differ, and with the validation error at the maximum year
4; in all three cases the store is unchanged. -/
theorem claim6_upgrade_preconditions (fs : Faults) (s : Store) (sid : Int) :
    ((locateStudent s .DBVS1 (toString sid) = none ∨
        locateStudent s .DBVS2 (toString sid) = none) →
      upgrade_student_year fs s sid =
        (s, .error (.studentNotFound (toString sid))))
    ∧ (∀ i1 i2 y1 y2,
      locateStudent s .DBVS1 (toString sid) = some i1 →
      locateStudent s .DBVS2 (toString sid) = some i2 →
      studyYearOf i1.2.2 = some y1 → studyYearOf i2.2.2 = some y2 →
      y1 ≠ y2 →
      upgrade_student_year fs s sid = (s, .error .inconsistentStudyYear))
    ∧ (∀ i1 i2,
      locateStudent s .DBVS1 (toString sid) = some i1 →
      locateStudent s .DBVS2 (toString sid) = some i2 →
      studyYearOf i1.2.2 = some 4 → studyYearOf i2.2.2 = some 4 →
      upgrade_student_year fs s sid = (s, .error .maxStudyYear)) := by
  refine ⟨?_, ?_, ?_⟩
  · intro h
    rcases h with h | h
    · simp only [upgrade_student_year, h]
    · cases hl : locateStudent s .DBVS1 (toString sid) with
      | none => simp only [upgrade_student_year, hl]
      | some i1 => simp only [upgrade_student_year, hl, h]
  · intro i1 i2 y1 y2 h1 h2 hy1 hy2 hne
    simp only [upgrade_student_year, h1, h2, hy1, hy2]
    rw [if_pos hne]
  · intro i1 i2 h1 h2 hy1 hy2
    simp only [upgrade_student_year, h1, h2, hy1, hy2]
    rw [if_neg (by simp), if_pos (by omega)]

/-- Claim C6 witness: the three precondition failures evaluated on concrete
stores: missing student, years 2 vs 3, and year 4 in both domains. -/
theorem claim6_upgrade_preconditions_witness :
    upgrade_student_year [] emptyStore 1 =
      (emptyStore, .error (.studentNotFound (toString (1 : Int)))) ∧
    upgrade_student_year [] upgCexStore 5 =
      (upgCexStore, .error .inconsistentStudyYear) ∧
    upgrade_student_year [] upgMaxStore 6 =
      (upgMaxStore, .error .maxStudyYear) :=
  ⟨(claim6_upgrade_preconditions [] emptyStore 1).1 (Or.inl (by decide)),
   (claim6_upgrade_preconditions [] upgCexStore 5).2.1
     (.db11, "a", [("study_year", .int 2)])
     (.db21, "b", [("study_year", .int 3)]) 2 3
     (by decide) (by decide) (by decide) (by decide) (by decide),
   (claim6_upgrade_preconditions [] upgMaxStore 6).2.2
     (.db12, "a", [("study_year", .int 4)])
     (.db22, "b", [("study_year", .int 4)])
     (by decide) (by decide) (by decide) (by decide)⟩

/-- Claim C3 counterexample: with the personal delete of student 202 forced
to fail and the compensating academic re-add also failing, delete_student
surfaces only the personal-delete error (whose raise site interpolates no
compensation failure), while the academic partition is indeed left without
the record, so the compensation failure was silently dropped. -/
theorem claim3_comp_failure_dropped_cex :
    (delete_student c3Faults c3Store 202).2 = .error (.deleteDbvs2Failed .db21) ∧
    mentionsCompensationFailure (.deleteDbvs2Failed .db21) = false ∧
    colGet ((colOf (delete_student c3Faults c3Store 202).1 .db11
        "students").getD []) "202" = none := by
  decide

/-- Claim C3 (amended): in the delete-student and upgrade-student-year
sagas, a compensation failure after a failed forward step is silently
swallowed: the surfaced error is the original step failure alone (its raise
site interpolates no compensation failure) and the partitions are left
inconsistent. -/
theorem claim3_compensation_swallowed :
    (∀ (fs : Faults) (s : Store) (sid : Int) i1 i2,
      locateStudent s .DBVS1 (toString sid) = some i1 →
      locateStudent s .DBVS2 (toString sid) = some i2 →
      faulted fs i1.1 "students" .del = false →
      faulted fs i2.1 "students" .del = true →
      faulted fs i1.1 "students" .add = true →
      (delete_student fs s sid).2 = .error (.deleteDbvs2Failed i2.1) ∧
      mentionsCompensationFailure (.deleteDbvs2Failed i2.1) = false ∧
      colGet ((colOf (delete_student fs s sid).1 i1.1 "students").getD [])
        (toString sid) = none)
    ∧ (∀ (fs : Faults) (s : Store) (sid : Int) i1 i2,
      locateStudent s .DBVS1 (toString sid) = some i1 →
      locateStudent s .DBVS2 (toString sid) = some i2 →
      studyYearOf i1.2.2 = some 2 → studyYearOf i2.2.2 = some 2 →
      faulted fs .db12 "students" .add = false →
      faulted fs .db11 "students" .del = false →
      faulted fs .db22 "students" .add = true →
      faulted fs .db11 "students" .add = true →
      (upgrade_student_year fs s sid).2 =
        .error (.upgradeAddFailed .DBVS2 .db22) ∧
      mentionsCompensationFailure (.upgradeAddFailed .DBVS2 .db22) = false ∧
      colGet ((colOf (upgrade_student_year fs s sid).1 .db11
          "students").getD []) (toString sid) = none) := by
  constructor
  · intro fs s sid i1 i2 h1 h2 hfd1 hfd2 hfa1
    unfold delete_student
    simp only [h1, h2, gwDel_ok hfd1, gwDel_fault hfd2, gwAdd_fault hfa1]
    refine ⟨trivial, rfl, ?_⟩
    rw [colOf_ensureCol_getD, colOf_putCol, if_pos rfl, if_pos rfl]
    exact colGet_colDeleteIds_self _ _
  · intro fs s sid i1 i2 h1 h2 hy1 hy2 hfa12 hfd11 hfa22 hfa11
    have r11 : resolve_fragment .DBVS1 2 = .ok .db11 := by decide
    have r12 : resolve_fragment .DBVS1 (2 + 1) = .ok .db12 := by decide
    have r21 : resolve_fragment .DBVS2 2 = .ok .db21 := by decide
    have r22 : resolve_fragment .DBVS2 (2 + 1) = .ok .db22 := by decide
    unfold upgrade_student_year
    simp only [h1, h2, hy1, hy2]
    rw [if_neg (by simp), if_neg (by omega)]
    have e1 : (DbId.db12 = DbId.db11) = False := by simp
    have e2 : (DbId.db22 = DbId.db21) = False := by simp
    unfold applyOnServer
    simp only [r11, r12, r21, r22, e1, e2, if_false, gwAdd_ok hfa12,
      gwDel_ok hfd11, gwAdd_fault hfa22]
    unfold undoDbvs1Action
    simp only [gwAdd_fault hfa11]
    refine ⟨trivial, rfl, ?_⟩
    rw [colOf_ensureCol_getD, colOf_ensureCol_getD, colOf_ensureCol_getD,
      colOf_ensureCol_getD, colOf_putCol, if_pos rfl, if_pos rfl]
    exact colGet_colDeleteIds_self _ _

/-- Claim C3 witness: the amended statement evaluated on the concrete
stores and fault sets for both sagas. -/
theorem claim3_compensation_swallowed_witness :
    ((delete_student c3Faults c3Store 202).2 =
        .error (.deleteDbvs2Failed .db21) ∧
      mentionsCompensationFailure (.deleteDbvs2Failed .db21) = false ∧
      colGet ((colOf (delete_student c3Faults c3Store 202).1 .db11
          "students").getD []) (toString (202 : Int)) = none)
    ∧ ((upgrade_student_year c3Faults c3UpgStore 303).2 =
        .error (.upgradeAddFailed .DBVS2 .db22) ∧
      mentionsCompensationFailure (.upgradeAddFailed .DBVS2 .db22) = false ∧
      colGet ((colOf (upgrade_student_year c3Faults c3UpgStore 303).1 .db11
          "students").getD []) (toString (303 : Int)) = none) :=
  ⟨claim3_compensation_swallowed.1 c3Faults c3Store 202
      (.db11, "doc1", [("final_score", .int 7), ("study_year", .int 1)])
      (.db21, "doc2", [("student_id", .int 202), ("name", .str "A"),
        ("study_year", .int 1)])
      (by decide) (by decide) (by decide) (by decide) (by decide),
   claim3_compensation_swallowed.2 c3Faults c3UpgStore 303
      (.db11, "d1", [("study_year", .int 2)])
      (.db21, "d2", [("study_year", .int 2)])
      (by decide) (by decide) (by decide) (by decide) (by decide) (by decide)
      (by decide) (by decide)⟩

/-- Claim C1: evaluating delete_course at the repository's own test input
(course "16" in db22 with two linked reviews in db12) shows the forced
RuntimeError left active at src/api.py line 397: instead of deleting the two
reviews and reporting a count of 2, the operation reports a 500 rollback
error, the course is back in its source partition and both reviews remain. -/
theorem claim1_delete_course_forced_failure :
    (delete_course [] c1Store "16").2 =
      .error (.reviewsDeleteFailedRolledBack .db12 .db22) ∧
    colGet ((colOf (delete_course [] c1Store "16").1 .db22 "courses").getD [])
        "16" =
      some ⟨"16", "DB Systems", [("name", .str "Database Systems")]⟩ ∧
    (colOf (delete_course [] c1Store "16").1 .db12 "course_review").getD [] =
      [⟨"r1", "bad slides", [("course_id", .int 16)]⟩,
       ⟨"r2", "great content", [("course_id", .int 16)]⟩] := by
  decide

/-! Review-migration lemmas (claim C5). -/

theorem mem_colAdd {col : List Row} {r r' : Row} (h : r' ∈ colAdd col r) :
    r' ∈ col ∨ r' = r := by
  unfold colAdd at h
  split at h
  · rcases List.mem_map.mp h with ⟨x, hx, hfx⟩
    by_cases hid : x.id = r.id
    · right; rw [← hfx, if_pos hid]
    · left; rw [← hfx, if_neg hid]; exact hx
  · rcases List.mem_append.mp h with h | h
    · exact Or.inl h
    · exact Or.inr (List.mem_singleton.mp h)

theorem c5_loop_eq (rs : List Row)
    (hmatch : ∀ r ∈ rs, pyStrOpt (metaGet r.meta "course_id") = "5") :
    ∀ (s : Store) (acc : List String),
      moveReviewsLoop c5Faults .db12 "5" rs s acc =
        (c5LoopState s rs, acc ++ rs.map (·.id), true) := by
  induction rs with
  | nil => intro s acc; simp [moveReviewsLoop, c5LoopState]
  | cons r rest ih =>
    intro s acc
    have hr := hmatch r (List.mem_cons_self _ _)
    have hrest : ∀ r' ∈ rest, pyStrOpt (metaGet r'.meta "course_id") = "5" :=
      fun r' hr' => hmatch r' (List.mem_cons_of_mem _ hr')
    have hadd : faulted c5Faults .db12 "course_review" .add = false := by decide
    simp only [moveReviewsLoop, hr, if_pos rfl, gwAddElseUpd, gwAdd_ok hadd]
    rw [ih hrest]
    simp [c5LoopState, List.append_assoc]

theorem c5LoopState_colOf_other (rs : List Row) :
    ∀ (s : Store) (d : DbId) (n : String),
      (¬ (d = DbId.db12 ∧ n = "course_review")) →
      colOf (c5LoopState s rs) d n = colOf s d n := by
  induction rs with
  | nil => intro s d n _; rfl
  | cons r rest ih =>
    intro s d n h
    simp only [c5LoopState, List.foldl_cons]
    have := ih (putCol s .db12 "course_review"
      (colAdd ((colOf s .db12 "course_review").getD []) r)) d n h
    simp only [c5LoopState] at this
    rw [this, colOf_putCol]
    by_cases hd : d = DbId.db12
    · subst hd
      have hn : ¬ n = "course_review" := fun e => h ⟨rfl, e⟩
      simp [hn]
    · simp [hd]

theorem c5LoopState_colOf_self (rs : List Row) :
    ∀ (s : Store) (c0 : List Row),
      colOf s .db12 "course_review" = some c0 →
      colOf (c5LoopState s rs) .db12 "course_review" =
        some (rs.foldl colAdd c0) := by
  induction rs with
  | nil => intro s c0 h; simpa [c5LoopState] using h
  | cons r rest ih =>
    intro s c0 h
    simp only [c5LoopState, List.foldl_cons]
    have hstep : colOf (putCol s .db12 "course_review"
        (colAdd ((colOf s .db12 "course_review").getD []) r)) .db12
        "course_review" = some (colAdd c0 r) := by
      rw [colOf_putCol]; simp [h]
    have := ih (putCol s .db12 "course_review"
      (colAdd ((colOf s .db12 "course_review").getD []) r)) (colAdd c0 r) hstep
    simpa [c5LoopState] using this

theorem mem_foldl_colAdd {rs : List Row} :
    ∀ {c0 : List Row} {r' : Row}, r' ∈ rs.foldl colAdd c0 →
      r' ∈ c0 ∨ r'.id ∈ rs.map (·.id) := by
  induction rs with
  | nil => intro c0 r' h; exact Or.inl h
  | cons r rest ih =>
    intro c0 r' h
    simp only [List.foldl_cons] at h
    rcases ih h with h' | h'
    · rcases mem_colAdd h' with h'' | h''
      · exact Or.inl h''
      · right; rw [h'']; exact List.mem_cons_self _ _
    · right; exact List.mem_cons_of_mem _ h'

theorem c5_fold_delete (rs : List Row) :
    colDeleteIds (rs.foldl colAdd []) (rs.map (·.id)) = [] := by
  unfold colDeleteIds
  rw [List.filter_eq_nil_iff]
  intro r hr
  rcases mem_foldl_colAdd hr with h | h
  · exact absurd h (List.not_mem_nil r)
  · rcases List.mem_map.mp h with ⟨x, hx, hid⟩
    simp only [decide_not, Bool.not_eq_true', decide_eq_false_iff_not, not_not]
    simp only [List.contains_iff_exists_mem_beq]
    exact ⟨x.id, List.mem_map_of_mem _ hx, by rw [hid]; exact beq_self_eq_true r.id⟩

theorem colDeleteIds_all {col : List Row} {ids : List String}
    (h : ∀ r ∈ col, r.id ∈ ids) : colDeleteIds col ids = [] := by
  unfold colDeleteIds
  rw [List.filter_eq_nil_iff]
  intro r hr
  simp only [decide_not, Bool.not_eq_true', decide_eq_false_iff_not, not_not]
  simp only [List.contains_iff_exists_mem_beq]
  exact ⟨r.id, h r hr, beq_self_eq_true r.id⟩

theorem rollback2_eval (fs : Faults) (t : Store) (crow exr prr : Row)
    (ids : List String) (hids : ids ≠ [])
    (hfp : faulted fs .db21 "programs" .add = false)
    (hfpd : faulted fs .db22 "programs" .del = false)
    (hfe : faulted fs .db21 "exams" .add = false)
    (hfed : faulted fs .db22 "exams" .del = false)
    (hfc : faulted fs .db21 "courses" .add = false)
    (hfcd : faulted fs .db22 "courses" .del = false)
    (hfr : faulted fs .db12 "course_review" .del = false) :
    (moveRollbackPhase2 fs t .db21 .db22 crow (some exr) (some prr) .db12
        ids).2 = .moveReviewsFailed ∧
    colGet ((colOf (moveRollbackPhase2 fs t .db21 .db22 crow (some exr)
        (some prr) .db12 ids).1 .db21 "programs").getD []) prr.id = some prr ∧
    colGet ((colOf (moveRollbackPhase2 fs t .db21 .db22 crow (some exr)
        (some prr) .db12 ids).1 .db21 "exams").getD []) exr.id = some exr ∧
    colGet ((colOf (moveRollbackPhase2 fs t .db21 .db22 crow (some exr)
        (some prr) .db12 ids).1 .db21 "courses").getD []) crow.id = some crow ∧
    colGet ((colOf (moveRollbackPhase2 fs t .db21 .db22 crow (some exr)
        (some prr) .db12 ids).1 .db22 "programs").getD []) prr.id = none ∧
    colGet ((colOf (moveRollbackPhase2 fs t .db21 .db22 crow (some exr)
        (some prr) .db12 ids).1 .db22 "exams").getD []) exr.id = none ∧
    colGet ((colOf (moveRollbackPhase2 fs t .db21 .db22 crow (some exr)
        (some prr) .db12 ids).1 .db22 "courses").getD []) crow.id = none ∧
    ((∀ r ∈ (colOf t .db12 "course_review").getD [], r.id ∈ ids) →
      (colOf (moveRollbackPhase2 fs t .db21 .db22 crow (some exr) (some prr)
          .db12 ids).1 .db12 "course_review").getD [] = []) := by
  have hidT : (¬ ids = []) = True := eq_true hids
  simp only [moveRollbackPhase2, undoOne, gwAddElseUpd, gwAdd_ok hfp,
    gwDel_ok hfpd, gwAdd_ok hfe, gwDel_ok hfed, gwAdd_ok hfc, gwDel_ok hfcd,
    gwDel_ok hfr, hidT, if_true, ne_eq]
  refine ⟨trivial, ?_, ?_, ?_, ?_, ?_, ?_, ?_⟩
  · simp [colOf_putCol, colOf_ensureCol_getD, colGet_colAdd_self]
  · simp [colOf_putCol, colOf_ensureCol_getD, colGet_colAdd_self]
  · simp [colOf_putCol, colOf_ensureCol_getD, colGet_colAdd_self]
  · simp [colOf_putCol, colOf_ensureCol_getD, colGet_colDeleteIds_self]
  · simp [colOf_putCol, colOf_ensureCol_getD, colGet_colDeleteIds_self]
  · simp [colOf_putCol, colOf_ensureCol_getD, colGet_colDeleteIds_self]
  · intro hD
    simp [colOf_putCol, colOf_ensureCol_getD]
    exact colDeleteIds_all hD

/-- Claim C5: when the first phase of move_course (course, exam, program
from db21 to db22) succeeds and the review-migration phase fails (here: the
delete-from-source of the reviews faults), the course, exam and program are
restored to the source partition and absent from the target, every review
added to the target academic partition is removed again, and the failure is
reported. -/
theorem claim5_move_review_rollback (dc de dp : String)
    (mcExtra me mp : List (String × Val)) (rs : List Row)
    (hmatch : ∀ r ∈ rs, pyStrOpt (metaGet r.meta "course_id") = "5")
    (hne : rs ≠ []) :
    (move_course c5Faults (c5Store dc de dp mcExtra me mp rs) "5" "db22").2 =
      .error .moveReviewsFailed ∧
    colGet ((colOf (move_course c5Faults (c5Store dc de dp mcExtra me mp rs)
        "5" "db22").1 .db21 "courses").getD []) "5" =
      some ⟨"5", dc,
        mcExtra ++ [("exam_id", Val.int 7), ("program_id", Val.int 9)]⟩ ∧
    colGet ((colOf (move_course c5Faults (c5Store dc de dp mcExtra me mp rs)
        "5" "db22").1 .db21 "exams").getD []) "7" = some ⟨"7", de, me⟩ ∧
    colGet ((colOf (move_course c5Faults (c5Store dc de dp mcExtra me mp rs)
        "5" "db22").1 .db21 "programs").getD []) "9" = some ⟨"9", dp, mp⟩ ∧
    colGet ((colOf (move_course c5Faults (c5Store dc de dp mcExtra me mp rs)
        "5" "db22").1 .db22 "courses").getD []) "5" = none ∧
    colGet ((colOf (move_course c5Faults (c5Store dc de dp mcExtra me mp rs)
        "5" "db22").1 .db22 "exams").getD []) "7" = none ∧
    colGet ((colOf (move_course c5Faults (c5Store dc de dp mcExtra me mp rs)
        "5" "db22").1 .db22 "programs").getD []) "9" = none ∧
    (colOf (move_course c5Faults (c5Store dc de dp mcExtra me mp rs)
        "5" "db22").1 .db12 "course_review").getD [] = [] := by
  have hdel : faulted c5Faults .db11 "course_review" .del = true := by decide
  have hmapne : rs.map (·.id) ≠ [] := by
    intro h
    exact hne (List.map_eq_nil_iff.mp h)
  have hloop := c5_loop_eq rs hmatch
  have hex : metaGet (mcExtra ++ [("exam_id", Val.int 7),
      ("program_id", Val.int 9)]) "exam_id" = some (Val.int 7) := by
    rw [metaGet_append]; rfl
  have hpg : metaGet (mcExtra ++ [("exam_id", Val.int 7),
      ("program_id", Val.int 9)]) "program_id" = some (Val.int 9) := by
    rw [metaGet_append]; rfl
  have hp1 : movePhase1 c5Faults (c5Store dc de dp mcExtra me mp rs) .db21
      .db22
      ⟨"5", dc, mcExtra ++ [("exam_id", Val.int 7), ("program_id", Val.int 9)]⟩
      (some ⟨"7", de, me⟩) (some ⟨"9", dp, mp⟩) =
      .ok { db11 := [("course_review", rs)]
            db12 := []
            db21 := [("courses", []), ("exams", []), ("programs", [])]
            db22 := [("courses", [⟨"5", dc, mcExtra ++ [("exam_id", Val.int 7),
                ("program_id", Val.int 9)]⟩]),
              ("exams", [⟨"7", de, me⟩]),
              ("programs", [⟨"9", dp, mp⟩])] } := rfl
  have hp2 : moveReviewsPhase c5Faults
      { db11 := [("course_review", rs)]
        db12 := []
        db21 := [("courses", []), ("exams", []), ("programs", [])]
        db22 := [("courses", [⟨"5", dc, mcExtra ++ [("exam_id", Val.int 7),
            ("program_id", Val.int 9)]⟩]),
          ("exams", [⟨"7", de, me⟩]),
          ("programs", [⟨"9", dp, mp⟩])] } .db11 .db12 "5" =
      (c5LoopState
        { db11 := [("course_review", rs)]
          db12 := [("course_review", [])]
          db21 := [("courses", []), ("exams", []), ("programs", [])]
          db22 := [("courses", [⟨"5", dc, mcExtra ++ [("exam_id", Val.int 7),
              ("program_id", Val.int 9)]⟩]),
            ("exams", [⟨"7", de, me⟩]),
            ("programs", [⟨"9", dp, mp⟩])] } rs, rs.map (·.id), false) := by
    unfold moveReviewsPhase
    simp only [show colOf
        { db11 := [("course_review", rs)]
          db12 := []
          db21 := [("courses", []), ("exams", []), ("programs", [])]
          db22 := [("courses", [⟨"5", dc, mcExtra ++ [("exam_id", Val.int 7),
              ("program_id", Val.int 9)]⟩]),
            ("exams", [⟨"7", de, me⟩]),
            ("programs", [⟨"9", dp, mp⟩])] } .db11 "course_review" =
        some rs from rfl]
    simp only [show ensureCol
        { db11 := [("course_review", rs)]
          db12 := []
          db21 := [("courses", []), ("exams", []), ("programs", [])]
          db22 := [("courses", [⟨"5", dc, mcExtra ++ [("exam_id", Val.int 7),
              ("program_id", Val.int 9)]⟩]),
            ("exams", [⟨"7", de, me⟩]),
            ("programs", [⟨"9", dp, mp⟩])] } .db12 "course_review" =
        { db11 := [("course_review", rs)]
          db12 := [("course_review", [])]
          db21 := [("courses", []), ("exams", []), ("programs", [])]
          db22 := [("courses", [⟨"5", dc, mcExtra ++ [("exam_id", Val.int 7),
              ("program_id", Val.int 9)]⟩]),
            ("exams", [⟨"7", de, me⟩]),
            ("programs", [⟨"9", dp, mp⟩])] } from rfl]
    rw [hloop]
    simp only [List.nil_append]
    rw [if_pos hmapne]
    simp only [gwDel_fault hdel]
  have hroot : move_course c5Faults (c5Store dc de dp mcExtra me mp rs) "5"
      "db22" =
      ((moveRollbackPhase2 c5Faults (c5LoopState
          { db11 := [("course_review", rs)]
            db12 := [("course_review", [])]
            db21 := [("courses", []), ("exams", []), ("programs", [])]
            db22 := [("courses", [⟨"5", dc, mcExtra ++ [("exam_id", Val.int 7),
                ("program_id", Val.int 9)]⟩]),
              ("exams", [⟨"7", de, me⟩]),
              ("programs", [⟨"9", dp, mp⟩])] } rs) .db21 .db22
          ⟨"5", dc, mcExtra ++ [("exam_id", Val.int 7), ("program_id", Val.int 9)]⟩
          (some ⟨"7", de, me⟩) (some ⟨"9", dp, mp⟩) .db12 (rs.map (·.id))).1,
        .error ((moveRollbackPhase2 c5Faults (c5LoopState
          { db11 := [("course_review", rs)]
            db12 := [("course_review", [])]
            db21 := [("courses", []), ("exams", []), ("programs", [])]
            db22 := [("courses", [⟨"5", dc, mcExtra ++ [("exam_id", Val.int 7),
                ("program_id", Val.int 9)]⟩]),
              ("exams", [⟨"7", de, me⟩]),
              ("programs", [⟨"9", dp, mp⟩])] } rs) .db21 .db22
          ⟨"5", dc, mcExtra ++ [("exam_id", Val.int 7), ("program_id", Val.int 9)]⟩
          (some ⟨"7", de, me⟩) (some ⟨"9", dp, mp⟩) .db12 (rs.map (·.id))).2)) := by
    simp only [move_course,
      show parseTargetDb (pyStripLower "db22") = some DbId.db22 from rfl,
      show findCourseRow (c5Store dc de dp mcExtra me mp rs) "5" =
        some (DbId.db21, ⟨"5", dc, mcExtra ++ [("exam_id", Val.int 7),
          ("program_id", Val.int 9)]⟩) from rfl,
      show (DbId.db21 = DbId.db22) = False from by simp, if_false,
      hex, hpg,
      show getRowFull (c5Store dc de dp mcExtra me mp rs) .db21 "exams"
        (pyStr (Val.int 7)) = some (some ⟨"7", de, me⟩) from rfl,
      show getRowFull (c5Store dc de dp mcExtra me mp rs) .db21 "programs"
        (pyStr (Val.int 9)) = some (some ⟨"9", dp, mp⟩) from rfl,
      hp1, hp2,
      show (DbId.db21 = DbId.db21) = True from by simp,
      show (DbId.db22 = DbId.db21) = False from by simp, if_true]
  have hrbe := rollback2_eval c5Faults (c5LoopState
      { db11 := [("course_review", rs)]
        db12 := [("course_review", [])]
        db21 := [("courses", []), ("exams", []), ("programs", [])]
        db22 := [("courses", [⟨"5", dc, mcExtra ++ [("exam_id", Val.int 7),
            ("program_id", Val.int 9)]⟩]),
          ("exams", [⟨"7", de, me⟩]),
          ("programs", [⟨"9", dp, mp⟩])] } rs)
      ⟨"5", dc, mcExtra ++ [("exam_id", Val.int 7), ("program_id", Val.int 9)]⟩
      ⟨"7", de, me⟩ ⟨"9", dp, mp⟩ (rs.map (·.id)) hmapne (by decide)
      (by decide) (by decide) (by decide) (by decide) (by decide) (by decide)
  have hself := c5LoopState_colOf_self rs
      { db11 := [("course_review", rs)]
        db12 := [("course_review", [])]
        db21 := [("courses", []), ("exams", []), ("programs", [])]
        db22 := [("courses", [⟨"5", dc, mcExtra ++ [("exam_id", Val.int 7),
            ("program_id", Val.int 9)]⟩]),
          ("exams", [⟨"7", de, me⟩]),
          ("programs", [⟨"9", dp, mp⟩])] } [] rfl
  have hD : ∀ r ∈ (colOf (c5LoopState
      { db11 := [("course_review", rs)]
        db12 := [("course_review", [])]
        db21 := [("courses", []), ("exams", []), ("programs", [])]
        db22 := [("courses", [⟨"5", dc, mcExtra ++ [("exam_id", Val.int 7),
            ("program_id", Val.int 9)]⟩]),
          ("exams", [⟨"7", de, me⟩]),
          ("programs", [⟨"9", dp, mp⟩])] } rs) .db12 "course_review").getD [],
      r.id ∈ rs.map (·.id) := by
    rw [hself]
    intro r hr
    rcases mem_foldl_colAdd hr with h | h
    · exact absurd h (List.not_mem_nil r)
    · exact h
  obtain ⟨g1, g2, g3, g4, g5, g6, g7, g8⟩ := hrbe
  refine ⟨?_, ?_, ?_, ?_, ?_, ?_, ?_, ?_⟩
  · rw [hroot]; simp [g1]
  · rw [hroot]; simp [g4]
  · rw [hroot]; simp [g3]
  · rw [hroot]; simp [g2]
  · rw [hroot]; simp [g7]
  · rw [hroot]; simp [g6]
  · rw [hroot]; simp [g5]
  · rw [hroot]; simp [g8 hD]

/-- Claim C5 witness: the scenario of the spec (course with linked exam,
program and two matching reviews, review migration forced to fail)
evaluated concretely through the rollback theorem. -/
theorem claim5_move_review_rollback_witness :
    (move_course c5Faults (c5Store "DBcourse" "Final" "DS"
        [("name", Val.str "Database Systems")] [("passing_score", Val.int 9)]
        [] [⟨"rv1", "good", [("course_id", Val.int 5)]⟩,
          ⟨"rv2", "great", [("course_id", Val.int 5)]⟩]) "5" "db22").2 =
      .error .moveReviewsFailed ∧
    colGet ((colOf (move_course c5Faults (c5Store "DBcourse" "Final" "DS"
        [("name", Val.str "Database Systems")] [("passing_score", Val.int 9)]
        [] [⟨"rv1", "good", [("course_id", Val.int 5)]⟩,
          ⟨"rv2", "great", [("course_id", Val.int 5)]⟩]) "5" "db22").1
        .db21 "courses").getD []) "5" =
      some ⟨"5", "DBcourse", [("name", Val.str "Database Systems")] ++
        [("exam_id", Val.int 7), ("program_id", Val.int 9)]⟩ ∧
    colGet ((colOf (move_course c5Faults (c5Store "DBcourse" "Final" "DS"
        [("name", Val.str "Database Systems")] [("passing_score", Val.int 9)]
        [] [⟨"rv1", "good", [("course_id", Val.int 5)]⟩,
          ⟨"rv2", "great", [("course_id", Val.int 5)]⟩]) "5" "db22").1
        .db21 "exams").getD []) "7" =
      some ⟨"7", "Final", [("passing_score", Val.int 9)]⟩ ∧
    colGet ((colOf (move_course c5Faults (c5Store "DBcourse" "Final" "DS"
        [("name", Val.str "Database Systems")] [("passing_score", Val.int 9)]
        [] [⟨"rv1", "good", [("course_id", Val.int 5)]⟩,
          ⟨"rv2", "great", [("course_id", Val.int 5)]⟩]) "5" "db22").1
        .db21 "programs").getD []) "9" = some ⟨"9", "DS", []⟩ ∧
    colGet ((colOf (move_course c5Faults (c5Store "DBcourse" "Final" "DS"
        [("name", Val.str "Database Systems")] [("passing_score", Val.int 9)]
        [] [⟨"rv1", "good", [("course_id", Val.int 5)]⟩,
          ⟨"rv2", "great", [("course_id", Val.int 5)]⟩]) "5" "db22").1
        .db22 "courses").getD []) "5" = none ∧
    colGet ((colOf (move_course c5Faults (c5Store "DBcourse" "Final" "DS"
        [("name", Val.str "Database Systems")] [("passing_score", Val.int 9)]
        [] [⟨"rv1", "good", [("course_id", Val.int 5)]⟩,
          ⟨"rv2", "great", [("course_id", Val.int 5)]⟩]) "5" "db22").1
        .db22 "exams").getD []) "7" = none ∧
    colGet ((colOf (move_course c5Faults (c5Store "DBcourse" "Final" "DS"
        [("name", Val.str "Database Systems")] [("passing_score", Val.int 9)]
        [] [⟨"rv1", "good", [("course_id", Val.int 5)]⟩,
          ⟨"rv2", "great", [("course_id", Val.int 5)]⟩]) "5" "db22").1
        .db22 "programs").getD []) "9" = none ∧
    (colOf (move_course c5Faults (c5Store "DBcourse" "Final" "DS"
        [("name", Val.str "Database Systems")] [("passing_score", Val.int 9)]
        [] [⟨"rv1", "good", [("course_id", Val.int 5)]⟩,
          ⟨"rv2", "great", [("course_id", Val.int 5)]⟩]) "5" "db22").1
        .db12 "course_review").getD [] = [] :=
  claim5_move_review_rollback "DBcourse" "Final" "DS"
    [("name", Val.str "Database Systems")] [("passing_score", Val.int 9)] []
    [⟨"rv1", "good", [("course_id", Val.int 5)]⟩,
      ⟨"rv2", "great", [("course_id", Val.int 5)]⟩]
    (by decide) (by decide)
